import Mathlib

/-!
# Verification of the OnBoard LED-panel timer / battery-monitor firmware

Shallow embedding of the firmware sources (`App/Common/Src/battery_monitor.c`,
`App/Common/Src/flash_storage.c`, `Core/Src/freertos.c`, `Core/Inc/main.h`)
and proofs about them.

Modelling conventions:
* C machine integers are modelled as `ℕ`/`ℤ` with explicit wrap-around where
  the C code can overflow (`u8`, `i8`, `i16`, `u16`, `u32` below).
* C `float` arithmetic is modelled over `ℚ` (exact real-valued semantics of
  the arithmetic expressions in the source); `roundf` becomes `roundQ`
  (round half away from zero).
* Calls into the HAL (clock reads, flash programming success) and into the C
  math library (`expf`) are modelled as explicit oracle parameters of the
  functions that make them.
-/

/-- Wrap-around of a C `uint8_t` value. -/
def u8 (n : ℕ) : ℕ := n % 256

/-- Wrap-around of a C `uint16_t` value. -/
def u16 (n : ℕ) : ℕ := n % 65536

/-- Value of a C `uint32_t` subtraction `a - b` (modular arithmetic). -/
def u32sub (a b : ℕ) : ℕ := (a % 4294967296 + 4294967296 - b % 4294967296) % 4294967296

/-- Conversion of an integer to a C `int8_t` (two's-complement wrap). -/
def i8 (n : ℤ) : ℤ := (n + 128) % 256 - 128

/-- Conversion of an integer to a C `int16_t` (two's-complement wrap). -/
def i16 (n : ℤ) : ℤ := (n + 32768) % 65536 - 32768

/-- Conversion of an integer to a C `uint16_t` (reduction mod 2^16). -/
def u16z (n : ℤ) : ℤ := n % 65536

/-- C `roundf`: round half away from zero. -/
def roundQ (x : ℚ) : ℤ := if 0 ≤ x then ⌊x + 1/2⌋ else -⌊-x + 1/2⌋

/-! ## Battery status classification (`Battery_Status_t`, `main.h`) -/

inductive BatteryStatus where
  | normal
  | low
  | critical
deriving DecidableEq, Repr

/-- Numeric value of the C enum `Battery_Status_t`. -/
def BatteryStatus.code : BatteryStatus → ℕ
  | .normal => 0
  | .low => 1
  | .critical => 2

/-- The C cast `(Battery_Status_t)c` for a code `c ≤ 2` (as used by
`Battery_Load_From_Flash` after checking `status <= BATTERY_STATUS_CRITICAL`). -/
def statusOfCode (c : ℕ) : BatteryStatus :=
  if c = 0 then .normal else if c = 1 then .low else .critical

/-- The status classification performed at the end of every
`Battery_Monitor_Update` (battery_monitor.c lines 158–169): CRITICAL iff the
percentage is ≤ 10, LOW iff it is in (10, 20], NORMAL otherwise. -/
def classifyStatus (pct : ℚ) : BatteryStatus :=
  if pct ≤ 10 then .critical
  else if pct ≤ 20 then .low
  else .normal

/-! ## Battery percentage lookup (`Battery_Calculate_Percentage`) -/

/-- `battery_lookup_table` from battery_monitor.c. -/
def battery_lookup_table : List (ℕ × ℕ) :=
  [(2741, 0), (2750, 1), (2780, 5), (2820, 10), (2860, 15),
   (2900, 20), (2940, 25), (2980, 30), (3020, 35), (3060, 40),
   (3100, 45), (3140, 50), (3180, 55), (3220, 60), (3260, 65),
   (3300, 70), (3340, 75), (3380, 80), (3420, 85), (3460, 90),
   (3500, 95), (3540, 98), (3580, 99), (3640, 100), (3730, 100)]

/-- One interpolation step of `Battery_Calculate_Percentage`:
`ratio = (a - x0)/(x1 - x0)`, `interpolated = p0 + ratio*(p1 - p0)`,
result `roundf(interpolated*100)/100`. -/
def lerpRound (x0 p0 x1 p1 a : ℕ) : ℚ :=
  (roundQ (((p0 : ℚ) + ((a : ℚ) - (x0 : ℚ)) / ((x1 : ℚ) - (x0 : ℚ)) * ((p1 : ℚ) - (p0 : ℚ)))
    * 100) : ℚ) / 100

/-- The linear scan `for i = 1; i < SIZE; i++ { if a <= table[i][0] ... }` of
`Battery_Calculate_Percentage`, with the previous entry carried along.
Falling off the end returns 0 (the function's final `return 0.0f`). -/
def scanTbl (a : ℕ) : ℕ × ℕ → List (ℕ × ℕ) → ℚ
  | _, [] => 0
  | (x0, p0), (x1, p1) :: rest =>
      if a ≤ x1 then lerpRound x0 p0 x1 p1 a else scanTbl a (x1, p1) rest

/-- `Battery_Calculate_Percentage` (battery_monitor.c lines 187–216). -/
def Battery_Calculate_Percentage (adc_value : ℕ) : ℚ :=
  if adc_value ≥ 3730 then 100
  else if adc_value ≤ 2741 then 0
  else scanTbl adc_value (2741, 0) battery_lookup_table.tail

/-! ### Generic facts about the lookup-table scan -/

/-- Ordering relation between consecutive table entries: strictly increasing
ADC breakpoints, non-decreasing percentages. -/
def tblOrd (q r : ℕ × ℕ) : Prop := q.1 < r.1 ∧ q.2 ≤ r.2

instance : DecidableRel tblOrd := fun q r =>
  inferInstanceAs (Decidable (q.1 < r.1 ∧ q.2 ≤ r.2))

/-- The ADC breakpoint of the last entry (`e0` if the tail is empty). -/
def lastX (e0 : ℕ × ℕ) : List (ℕ × ℕ) → ℕ
  | [] => e0.1
  | e1 :: l => lastX e1 l

lemma roundQ_nonneg {x : ℚ} (h : 0 ≤ x) : 0 ≤ roundQ x := by
  simp only [roundQ, if_pos h]
  exact Int.le_floor.2 (by push_cast; linarith)

lemma roundQ_mono {x y : ℚ} (hx : 0 ≤ x) (hxy : x ≤ y) : roundQ x ≤ roundQ y := by
  have hy : 0 ≤ y := le_trans hx hxy
  simp only [roundQ, if_pos hx, if_pos hy]
  exact Int.floor_le_floor (by linarith)

lemma le_roundQ {z : ℤ} {x : ℚ} (h0 : 0 ≤ x) (h : (z : ℚ) ≤ x) : z ≤ roundQ x := by
  simp only [roundQ, if_pos h0]
  exact Int.le_floor.2 (by push_cast; linarith)

lemma roundQ_le {z : ℤ} {x : ℚ} (h0 : 0 ≤ x) (h : x ≤ (z : ℚ)) : roundQ x ≤ z := by
  simp only [roundQ, if_pos h0]
  have : x + 1/2 < (z : ℚ) + 1 := by linarith
  exact Int.le_of_lt_add_one (Int.floor_lt.2 (by push_cast; linarith))

section LerpFacts

variable {x0 p0 x1 p1 a b : ℕ}

lemma interp_ge (hx : x0 < x1) (ha0 : x0 ≤ a) (hp : p0 ≤ p1) :
    (p0 : ℚ) ≤ (p0 : ℚ) + ((a : ℚ) - (x0 : ℚ)) / ((x1 : ℚ) - (x0 : ℚ)) * ((p1 : ℚ) - (p0 : ℚ)) := by
  have hden : (0 : ℚ) < (x1 : ℚ) - (x0 : ℚ) := by
    have : (x0 : ℚ) < (x1 : ℚ) := by exact_mod_cast hx
    linarith
  have hnum : (0 : ℚ) ≤ (a : ℚ) - (x0 : ℚ) := by
    have : (x0 : ℚ) ≤ (a : ℚ) := by exact_mod_cast ha0
    linarith
  have hratio : (0 : ℚ) ≤ ((a : ℚ) - (x0 : ℚ)) / ((x1 : ℚ) - (x0 : ℚ)) :=
    div_nonneg hnum (le_of_lt hden)
  have hdp : (0 : ℚ) ≤ (p1 : ℚ) - (p0 : ℚ) := by
    have : (p0 : ℚ) ≤ (p1 : ℚ) := by exact_mod_cast hp
    linarith
  nlinarith

lemma interp_le (hx : x0 < x1) (ha1 : a ≤ x1) (hp : p0 ≤ p1) :
    (p0 : ℚ) + ((a : ℚ) - (x0 : ℚ)) / ((x1 : ℚ) - (x0 : ℚ)) * ((p1 : ℚ) - (p0 : ℚ)) ≤ (p1 : ℚ) := by
  have hden : (0 : ℚ) < (x1 : ℚ) - (x0 : ℚ) := by
    have : (x0 : ℚ) < (x1 : ℚ) := by exact_mod_cast hx
    linarith
  have hratio1 : ((a : ℚ) - (x0 : ℚ)) / ((x1 : ℚ) - (x0 : ℚ)) ≤ 1 := by
    rw [div_le_one hden]
    have : (a : ℚ) ≤ (x1 : ℚ) := by exact_mod_cast ha1
    linarith
  have hdp : (0 : ℚ) ≤ (p1 : ℚ) - (p0 : ℚ) := by
    have : (p0 : ℚ) ≤ (p1 : ℚ) := by exact_mod_cast hp
    linarith
  nlinarith

lemma lerp_ge (hx : x0 < x1) (ha0 : x0 ≤ a) (hp : p0 ≤ p1) :
    (p0 : ℚ) ≤ lerpRound x0 p0 x1 p1 a := by
  have hI := interp_ge (a := a) hx ha0 hp
  have hp0 : (0 : ℚ) ≤ (p0 : ℚ) := by positivity
  have hpos : (0 : ℚ) ≤ ((p0 : ℚ) +
      ((a : ℚ) - (x0 : ℚ)) / ((x1 : ℚ) - (x0 : ℚ)) * ((p1 : ℚ) - (p0 : ℚ))) * 100 := by nlinarith
  have hr : ((100 * p0 : ℕ) : ℤ) ≤ roundQ (((p0 : ℚ) +
      ((a : ℚ) - (x0 : ℚ)) / ((x1 : ℚ) - (x0 : ℚ)) * ((p1 : ℚ) - (p0 : ℚ))) * 100) :=
    le_roundQ hpos (by push_cast; nlinarith)
  unfold lerpRound
  rw [le_div_iff (by norm_num : (0 : ℚ) < 100)]
  have : (((100 * p0 : ℕ) : ℤ) : ℚ) ≤ (roundQ (((p0 : ℚ) +
      ((a : ℚ) - (x0 : ℚ)) / ((x1 : ℚ) - (x0 : ℚ)) * ((p1 : ℚ) - (p0 : ℚ))) * 100) : ℚ) := by
    exact_mod_cast hr
  push_cast at this ⊢
  linarith

lemma lerp_le (hx : x0 < x1) (ha0 : x0 ≤ a) (ha1 : a ≤ x1) (hp : p0 ≤ p1) :
    lerpRound x0 p0 x1 p1 a ≤ (p1 : ℚ) := by
  have hI := interp_le (a := a) hx ha1 hp
  have hIg := interp_ge (a := a) hx ha0 hp
  have hp0 : (0 : ℚ) ≤ (p0 : ℚ) := by positivity
  have hpos : (0 : ℚ) ≤ ((p0 : ℚ) +
      ((a : ℚ) - (x0 : ℚ)) / ((x1 : ℚ) - (x0 : ℚ)) * ((p1 : ℚ) - (p0 : ℚ))) * 100 := by nlinarith
  have hr : roundQ (((p0 : ℚ) +
      ((a : ℚ) - (x0 : ℚ)) / ((x1 : ℚ) - (x0 : ℚ)) * ((p1 : ℚ) - (p0 : ℚ))) * 100)
      ≤ ((100 * p1 : ℕ) : ℤ) :=
    roundQ_le hpos (by push_cast; nlinarith)
  unfold lerpRound
  rw [div_le_iff (by norm_num : (0 : ℚ) < 100)]
  have : (roundQ (((p0 : ℚ) +
      ((a : ℚ) - (x0 : ℚ)) / ((x1 : ℚ) - (x0 : ℚ)) * ((p1 : ℚ) - (p0 : ℚ))) * 100) : ℚ)
      ≤ (((100 * p1 : ℕ) : ℤ) : ℚ) := by exact_mod_cast hr
  push_cast at this ⊢
  linarith

lemma lerp_mono (hx : x0 < x1) (ha0 : x0 ≤ a) (hab : a ≤ b) (hb1 : b ≤ x1) (hp : p0 ≤ p1) :
    lerpRound x0 p0 x1 p1 a ≤ lerpRound x0 p0 x1 p1 b := by
  have hden : (0 : ℚ) < (x1 : ℚ) - (x0 : ℚ) := by
    have : (x0 : ℚ) < (x1 : ℚ) := by exact_mod_cast hx
    linarith
  have hdp : (0 : ℚ) ≤ (p1 : ℚ) - (p0 : ℚ) := by
    have : (p0 : ℚ) ≤ (p1 : ℚ) := by exact_mod_cast hp
    linarith
  have hIm : ((p0 : ℚ) + ((a : ℚ) - (x0 : ℚ)) / ((x1 : ℚ) - (x0 : ℚ)) * ((p1 : ℚ) - (p0 : ℚ)))
      ≤ ((p0 : ℚ) + ((b : ℚ) - (x0 : ℚ)) / ((x1 : ℚ) - (x0 : ℚ)) * ((p1 : ℚ) - (p0 : ℚ))) := by
    have hab' : (a : ℚ) ≤ (b : ℚ) := by exact_mod_cast hab
    have hinv : (0 : ℚ) < ((x1 : ℚ) - (x0 : ℚ))⁻¹ := inv_pos.2 hden
    have hdiv : ((a : ℚ) - (x0 : ℚ)) / ((x1 : ℚ) - (x0 : ℚ))
        ≤ ((b : ℚ) - (x0 : ℚ)) / ((x1 : ℚ) - (x0 : ℚ)) := by
      rw [div_eq_mul_inv, div_eq_mul_inv]
      exact mul_le_mul_of_nonneg_right (by linarith) (le_of_lt hinv)
    nlinarith
  have hIg := interp_ge (a := a) hx ha0 hp
  have hp0 : (0 : ℚ) ≤ (p0 : ℚ) := by positivity
  have hpos : (0 : ℚ) ≤ ((p0 : ℚ) +
      ((a : ℚ) - (x0 : ℚ)) / ((x1 : ℚ) - (x0 : ℚ)) * ((p1 : ℚ) - (p0 : ℚ))) * 100 := by nlinarith
  have := roundQ_mono hpos (by nlinarith :
    ((p0 : ℚ) + ((a : ℚ) - (x0 : ℚ)) / ((x1 : ℚ) - (x0 : ℚ)) * ((p1 : ℚ) - (p0 : ℚ))) * 100 ≤
    ((p0 : ℚ) + ((b : ℚ) - (x0 : ℚ)) / ((x1 : ℚ) - (x0 : ℚ)) * ((p1 : ℚ) - (p0 : ℚ))) * 100)
  unfold lerpRound
  have h100 : (0 : ℚ) < 100 := by norm_num
  rw [div_le_div_iff h100 h100]
  have hQ : (roundQ (((p0 : ℚ) +
      ((a : ℚ) - (x0 : ℚ)) / ((x1 : ℚ) - (x0 : ℚ)) * ((p1 : ℚ) - (p0 : ℚ))) * 100) : ℚ)
      ≤ (roundQ (((p0 : ℚ) +
      ((b : ℚ) - (x0 : ℚ)) / ((x1 : ℚ) - (x0 : ℚ)) * ((p1 : ℚ) - (p0 : ℚ))) * 100) : ℚ) := by
    exact_mod_cast this
  nlinarith

end LerpFacts

section ScanFacts

variable {a b : ℕ}

lemma scan_ge : ∀ (l : List (ℕ × ℕ)) (e0 : ℕ × ℕ), List.Chain tblOrd e0 l →
    e0.1 < a → a ≤ lastX e0 l → (e0.2 : ℚ) ≤ scanTbl a e0 l := by
  intro l
  induction l with
  | nil =>
      intro e0 _ h1 h2
      exact absurd (lt_of_lt_of_le h1 h2) (lt_irrefl _)
  | cons e1 rest ih =>
      intro e0 hch h1 h2
      obtain ⟨x0, p0⟩ := e0
      obtain ⟨x1, p1⟩ := e1
      obtain ⟨⟨hx, hp⟩, hch'⟩ := List.chain_cons.1 hch
      simp only [scanTbl]
      split_ifs with hax1
      · exact lerp_ge hx (le_of_lt h1) hp
      · push_neg at hax1
        calc (p0 : ℚ) ≤ (p1 : ℚ) := by exact_mod_cast hp
        _ ≤ scanTbl a (x1, p1) rest := ih (x1, p1) hch' hax1 h2

lemma scan_nonneg : ∀ (l : List (ℕ × ℕ)) (e0 : ℕ × ℕ), List.Chain tblOrd e0 l →
    e0.1 < a → 0 ≤ scanTbl a e0 l := by
  intro l
  induction l with
  | nil => intro e0 _ _; simp [scanTbl]
  | cons e1 rest ih =>
      intro e0 hch h1
      obtain ⟨x0, p0⟩ := e0
      obtain ⟨x1, p1⟩ := e1
      obtain ⟨⟨hx, hp⟩, hch'⟩ := List.chain_cons.1 hch
      simp only [scanTbl]
      split_ifs with hax1
      · exact le_trans (by positivity) (lerp_ge hx (le_of_lt h1) hp)
      · push_neg at hax1
        exact ih (x1, p1) hch' hax1

lemma scan_le_bound {c : ℕ} : ∀ (l : List (ℕ × ℕ)) (e0 : ℕ × ℕ), List.Chain tblOrd e0 l →
    e0.1 < a → (∀ e ∈ l, e.2 ≤ c) → scanTbl a e0 l ≤ (c : ℚ) := by
  intro l
  induction l with
  | nil => intro e0 _ _ _; simp [scanTbl]
  | cons e1 rest ih =>
      intro e0 hch h1 hbd
      obtain ⟨x0, p0⟩ := e0
      obtain ⟨x1, p1⟩ := e1
      obtain ⟨⟨hx, hp⟩, hch'⟩ := List.chain_cons.1 hch
      simp only [scanTbl]
      split_ifs with hax1
      · calc lerpRound x0 p0 x1 p1 a ≤ (p1 : ℚ) := lerp_le hx (le_of_lt h1) hax1 hp
        _ ≤ (c : ℚ) := by exact_mod_cast hbd (x1, p1) (List.mem_cons_self _ _)
      · push_neg at hax1
        exact ih (x1, p1) hch' hax1 (fun e he => hbd e (List.mem_cons_of_mem _ he))

lemma scan_mono (hab : a ≤ b) : ∀ (l : List (ℕ × ℕ)) (e0 : ℕ × ℕ), List.Chain tblOrd e0 l →
    e0.1 < a → b ≤ lastX e0 l → scanTbl a e0 l ≤ scanTbl b e0 l := by
  intro l
  induction l with
  | nil =>
      intro e0 _ h1 h2
      exact absurd (lt_of_lt_of_le (lt_of_lt_of_le h1 hab) h2) (lt_irrefl _)
  | cons e1 rest ih =>
      intro e0 hch h1 h2
      obtain ⟨x0, p0⟩ := e0
      obtain ⟨x1, p1⟩ := e1
      obtain ⟨⟨hx, hp⟩, hch'⟩ := List.chain_cons.1 hch
      simp only [scanTbl]
      by_cases hax1 : a ≤ x1
      · by_cases hbx1 : b ≤ x1
        · rw [if_pos hax1, if_pos hbx1]
          exact lerp_mono hx (le_of_lt h1) hab hbx1 hp
        · rw [if_pos hax1, if_neg hbx1]
          push_neg at hbx1
          calc lerpRound x0 p0 x1 p1 a ≤ (p1 : ℚ) := lerp_le hx (le_of_lt h1) hax1 hp
          _ ≤ scanTbl b (x1, p1) rest := scan_ge rest (x1, p1) hch' hbx1 h2
      · have hbx1 : ¬ b ≤ x1 := fun h => hax1 (le_trans hab h)
        rw [if_neg hax1, if_neg hbx1]
        push_neg at hax1 hbx1
        exact ih (x1, p1) hch' hax1 h2

lemma scan_bracket : ∀ (l : List (ℕ × ℕ)) (e0 : ℕ × ℕ), List.Chain tblOrd e0 l →
    e0.1 < a → a ≤ lastX e0 l →
    ∃ (x0 p0 x1 p1 : ℕ) (l1 l2 : List (ℕ × ℕ)),
      e0 :: l = l1 ++ (x0, p0) :: (x1, p1) :: l2 ∧ x0 < a ∧ a ≤ x1 ∧
      scanTbl a e0 l = lerpRound x0 p0 x1 p1 a := by
  intro l
  induction l with
  | nil =>
      intro e0 _ h1 h2
      exact absurd (lt_of_lt_of_le h1 h2) (lt_irrefl _)
  | cons e1 rest ih =>
      intro e0 hch h1 h2
      obtain ⟨x0, p0⟩ := e0
      obtain ⟨x1, p1⟩ := e1
      obtain ⟨⟨hx, hp⟩, hch'⟩ := List.chain_cons.1 hch
      simp only [scanTbl]
      split_ifs with hax1
      · exact ⟨x0, p0, x1, p1, [], rest, rfl, h1, hax1, rfl⟩
      · push_neg at hax1
        obtain ⟨y0, q0, y1, q1, l1, l2, heq, hy0, hy1, hsc⟩ :=
          ih (x1, p1) hch' hax1 h2
        exact ⟨y0, q0, y1, q1, (x0, p0) :: l1, l2, by rw [List.cons_append, ← heq],
          hy0, hy1, hsc⟩

end ScanFacts

/-! ### Concrete facts about `battery_lookup_table` -/

lemma tbl_chain : List.Chain tblOrd (2741, 0) battery_lookup_table.tail := by
  simp [battery_lookup_table, List.chain_cons, tblOrd]

lemma tbl_lastX : lastX (2741, 0) battery_lookup_table.tail = 3730 := by rfl

lemma tbl_bound : ∀ e ∈ battery_lookup_table.tail, e.2 ≤ 100 := by decide

lemma BCP_at_most_first {a : ℕ} (h : a ≤ 2741) : Battery_Calculate_Percentage a = 0 := by
  have hn : ¬ a ≥ 3730 := by omega
  unfold Battery_Calculate_Percentage
  rw [if_neg hn, if_pos h]

lemma BCP_at_least_last {a : ℕ} (h : 3730 ≤ a) : Battery_Calculate_Percentage a = 100 := by
  unfold Battery_Calculate_Percentage
  rw [if_pos h]

lemma BCP_nonneg (a : ℕ) : 0 ≤ Battery_Calculate_Percentage a := by
  unfold Battery_Calculate_Percentage
  split_ifs with h1 h2
  · norm_num
  · norm_num
  · exact scan_nonneg _ _ tbl_chain (by omega)

lemma BCP_le_100 (a : ℕ) : Battery_Calculate_Percentage a ≤ 100 := by
  unfold Battery_Calculate_Percentage
  split_ifs with h1 h2
  · norm_num
  · norm_num
  · have := scan_le_bound (a := a) (c := 100) _ (2741, 0) tbl_chain (by omega) tbl_bound
    exact_mod_cast this

lemma BCP_mono {a b : ℕ} (hab : a ≤ b) :
    Battery_Calculate_Percentage a ≤ Battery_Calculate_Percentage b := by
  by_cases hb1 : b ≤ 2741
  · rw [BCP_at_most_first (le_trans hab hb1), BCP_at_most_first hb1]
  by_cases ha3 : 3730 ≤ a
  · rw [BCP_at_least_last ha3, BCP_at_least_last (le_trans ha3 hab)]
  by_cases hb3 : 3730 ≤ b
  · rw [BCP_at_least_last hb3]
    exact BCP_le_100 a
  by_cases ha1 : a ≤ 2741
  · rw [BCP_at_most_first ha1]
    exact BCP_nonneg b
  push_neg at hb1 ha3 hb3 ha1
  unfold Battery_Calculate_Percentage
  rw [if_neg (by omega), if_neg (by omega), if_neg (by omega), if_neg (by omega)]
  exact scan_mono hab _ _ tbl_chain (by omega) (by rw [tbl_lastX]; omega)

/-! ## Flash storage model (`flash_storage.c`)

The reserved flash page is modelled as a list of byte values (read through
`byteAt`, which returns 0 out of range).  `FlashData_t` has layout
`magic:u32 @0, version:u16 @4, reserved:u16 @6, timer_value:u32 @8,
battery_percentage:u8 @12, battery_status:u8 @13, last_battery_adc:u16 @14,
checksum:u32 @16` (20 bytes, little endian, no padding).  HAL erase/program
operations are modelled as succeeding; their failure paths only propagate an
error status without touching the model state. -/

inductive HALStatus where
  | ok
  | error
deriving DecidableEq, Repr

def byteAt (l : List ℕ) (i : ℕ) : ℕ := l.getD i 0

/-- Little-endian 16-bit field starting at byte `i`. -/
def word16 (l : List ℕ) (i : ℕ) : ℕ := byteAt l i + 256 * byteAt l (i + 1)

/-- Little-endian 32-bit field starting at byte `i`. -/
def word32 (l : List ℕ) (i : ℕ) : ℕ :=
  byteAt l i + 256 * byteAt l (i + 1) + 65536 * byteAt l (i + 2) +
    16777216 * byteAt l (i + 3)

def serializeU16 (n : ℕ) : List ℕ := [n % 256, n / 256 % 256]

def serializeU32 (n : ℕ) : List ℕ :=
  [n % 256, n / 256 % 256, n / 65536 % 256, n / 16777216 % 256]

/-- `Flash_CalculateChecksum`: byte sum of the struct excluding the trailing
4-byte checksum field (the C `for` loop over bytes 0–15, unrolled). -/
def Flash_CalculateChecksum (l : List ℕ) : ℕ :=
  byteAt l 0 + byteAt l 1 + byteAt l 2 + byteAt l 3 + byteAt l 4 + byteAt l 5 +
  byteAt l 6 + byteAt l 7 + byteAt l 8 + byteAt l 9 + byteAt l 10 + byteAt l 11 +
  byteAt l 12 + byteAt l 13 + byteAt l 14 + byteAt l 15

def FLASH_MAGIC_NUMBER : ℕ := 0xABCD2111

/-- `Flash_IsDataValid`: magic, version and checksum must all match. -/
def Flash_IsDataValid (l : List ℕ) : Bool :=
  if word32 l 0 ≠ FLASH_MAGIC_NUMBER then false
  else if word16 l 4 ≠ 1 then false
  else if word32 l 16 ≠ Flash_CalculateChecksum l then false
  else true

/-- The first 16 bytes (all fields except the checksum) of a serialized
`FlashData_t` value. -/
def flashDataBody (reserved timer pct status adc : ℕ) : List ℕ :=
  serializeU32 FLASH_MAGIC_NUMBER ++ serializeU16 1 ++
    serializeU16 reserved ++ serializeU32 timer ++
    [pct % 256, status % 256] ++ serializeU16 adc

/-- Serialization of a `FlashData_t` value, with the checksum computed by
`Flash_CalculateChecksum` exactly as the write paths do. -/
def flashDataBytes (reserved timer pct status adc : ℕ) : List ℕ :=
  flashDataBody reserved timer pct status adc ++
    serializeU32 (Flash_CalculateChecksum (flashDataBody reserved timer pct status adc))

/-- `Flash_WriteBatteryData` (flash_storage.c lines 177–250): preserve the
timer value (and reserved field) of a valid existing record, otherwise use the
defaults `timer_value = 10`, `reserved = 0`; then overwrite the battery
fields, recompute the checksum and rewrite the page. -/
def Flash_WriteBatteryData (l : List ℕ) (percentage status adc_value : ℕ) : List ℕ :=
  if Flash_IsDataValid l then
    flashDataBytes (word16 l 6) (word32 l 8) percentage status adc_value
  else
    flashDataBytes 0 10 percentage status adc_value

/-- `Flash_ReadBatteryData` (flash_storage.c lines 286–310): on an invalid
record return `HAL_ERROR` with the defaults `(50, NORMAL, 3300)`. -/
def Flash_ReadBatteryData (l : List ℕ) : HALStatus × ℕ × ℕ × ℕ :=
  if Flash_IsDataValid l then (.ok, byteAt l 12, byteAt l 13, word16 l 14)
  else (.error, 50, 0, 3300)

/-- `Flash_ReadTimerValue` (flash_storage.c lines 257–277). -/
def Flash_ReadTimerValue (l : List ℕ) : HALStatus × ℕ :=
  if Flash_IsDataValid l then (.ok, word32 l 8) else (.error, 10)

/-! ## Battery monitor model (`battery_monitor.c`, `Battery_Monitor_t`) -/

def BATTERY_LOAD_VOLTAGE_DROP_ADC : ℕ := 90
def BATTERY_RECOVERY_TIME_MS : ℕ := 5000
def BATTERY_FULL : ℕ := 3640
def BATTERY_MIN : ℕ := 2740
def BATTERY_MAX : ℕ := 3720

/-- `Battery_Monitor_t` (main.h lines 62–93).  Times are in HAL ticks (ms). -/
structure Battery_Monitor_t where
  raw_adc_samples : List ℕ
  min_voltage_samples : List ℕ
  sample_index : ℕ
  min_voltage_index : ℕ
  sample_buffer_full : Bool
  min_voltage_buffer_full : Bool
  ten_second_samples : List ℕ
  ten_second_index : ℕ
  ten_second_buffer_full : Bool
  ten_second_start_time : ℕ
  filtered_voltage : ℕ
  compensated_voltage : ℕ
  display_voltage : ℕ
  ten_second_average : ℕ
  battery_percentage : ℚ
  last_saved_percentage : ℚ
  status : BatteryStatus
  last_load_state_change_time : ℕ
  is_under_load : Bool
  voltage_recovery_in_progress : Bool
  is_power_on_sequence : Bool
  last_update_time : ℕ
  last_flash_save_time : ℕ
  power_on_time : ℕ
deriving Repr

/-- uint16 subtraction with borrow wrap (`a - b` on `uint16_t`). -/
def u16subN (a b : ℕ) : ℕ := (a % 65536 + 65536 - b % 65536) % 65536

/-- `Battery_Apply_Load_Compensation` (battery_monitor.c lines 218–241);
`expf` is the C math-library exponential, passed in as an oracle. -/
def Battery_Apply_Load_Compensation (expf : ℚ → ℚ) (raw_adc : ℕ)
    (is_under_load : Bool) (time_since_load_change : ℕ) : ℕ :=
  if is_under_load then raw_adc
  else if time_since_load_change < BATTERY_RECOVERY_TIME_MS then
    let ratio0 : ℚ := (time_since_load_change : ℚ) / (BATTERY_RECOVERY_TIME_MS : ℚ)
    let recovery_ratio : ℚ := if ratio0 > 1 then 1 else ratio0
    let recovery_factor : ℚ := 1 - expf (-3 * recovery_ratio)
    u16subN raw_adc ((Int.toNat ⌊(BATTERY_LOAD_VOLTAGE_DROP_ADC : ℚ) * recovery_factor⌋) % 65536)
  else u16subN raw_adc BATTERY_LOAD_VOLTAGE_DROP_ADC

/-- `Battery_Filter_ADC_Samples` (battery_monitor.c lines 304–317). -/
def Battery_Filter_ADC_Samples (m : Battery_Monitor_t) : ℕ :=
  let count := if m.sample_buffer_full then 8 else m.sample_index
  if count = 0 then 0 else u16 ((m.raw_adc_samples.take count).sum / count)

/-- `Battery_Update_Ten_Second_Average` (battery_monitor.c lines 319–328). -/
def Battery_Update_Ten_Second_Average (m : Battery_Monitor_t) (voltage : ℕ) :
    Battery_Monitor_t :=
  let m1 := { m with
    ten_second_samples := m.ten_second_samples.set m.ten_second_index voltage,
    ten_second_index := (m.ten_second_index + 1) % 50 }
  if m1.ten_second_buffer_full = false ∧ m1.ten_second_index = 0 then
    { m1 with ten_second_buffer_full := true }
  else m1

/-- `Battery_Get_Ten_Second_Average` (battery_monitor.c lines 330–344);
returns the average and the monitor with `ten_second_average` refreshed. -/
def Battery_Get_Ten_Second_Average (m : Battery_Monitor_t) : ℕ × Battery_Monitor_t :=
  let count := if m.ten_second_buffer_full then 50 else m.ten_second_index
  if count = 0 then (0, m)
  else
    let avg := u16 ((m.ten_second_samples.take count).sum / count)
    (avg, { m with ten_second_average := avg })

/-- `Battery_Should_Update_Percentage` (battery_monitor.c lines 346–381). -/
def Battery_Should_Update_Percentage (m : Battery_Monitor_t) (current_time : ℕ)
    (is_load_active : Bool) : Bool × Battery_Monitor_t :=
  if u32sub current_time m.ten_second_start_time < 10000 then (false, m)
  else if m.ten_second_buffer_full = false then (false, m)
  else if is_load_active then (true, m)
  else
    let (avg, m1) := Battery_Get_Ten_Second_Average m
    if 0 < avg ∧ 24 ≤ ((avg : ℤ) - (m1.filtered_voltage : ℤ)).natAbs then (true, m1)
    else if 300000 ≤ u32sub current_time m1.last_flash_save_time then (true, m1)
    else (false, m1)

/-- The load-state-change block at the top of `Battery_Monitor_Update`
(battery_monitor.c lines 82–94). -/
def bmLoadChange (m : Battery_Monitor_t) (current_time : ℕ) (is_load_active : Bool) :
    Battery_Monitor_t :=
  if m.is_under_load ≠ is_load_active then
    { m with is_under_load := is_load_active,
             last_load_state_change_time := current_time,
             ten_second_start_time := current_time,
             ten_second_index := 0,
             ten_second_buffer_full := false,
             voltage_recovery_in_progress :=
               if is_load_active = false then true else m.voltage_recovery_in_progress }
  else m

/-- Storing the raw sample into the ring buffer
(battery_monitor.c lines 96–102). -/
def bmStoreSample (m : Battery_Monitor_t) (raw_adc_value : ℕ) : Battery_Monitor_t :=
  let m1 := { m with raw_adc_samples := m.raw_adc_samples.set m.sample_index raw_adc_value,
                     sample_index := (m.sample_index + 1) % 8 }
  if m1.sample_buffer_full = false ∧ m1.sample_index = 0 then
    { m1 with sample_buffer_full := true }
  else m1

/-- The percentage-update block (battery_monitor.c lines 129–150): rate-limit
the move towards the freshly calculated percentage to ±2 points, then clamp. -/
def bmPercentageStep (m : Battery_Monitor_t) : Battery_Monitor_t :=
  let r := Battery_Get_Ten_Second_Average m
  let avg_voltage := r.1
  let m1 := r.2
  if 0 < avg_voltage then
    let new_percentage := Battery_Calculate_Percentage avg_voltage
    let d := new_percentage - m1.battery_percentage
    let p1 := if |d| ≤ 2 then new_percentage
              else if d > 2 then m1.battery_percentage + 2
              else if d < -2 then m1.battery_percentage - 2
              else m1.battery_percentage
    let p2 := if p1 > 100 then 100 else p1
    let p3 := if p2 > 150 ∧ p2 < 255 then 0 else p2
    { m1 with battery_percentage := p3 }
  else m1

/-- `Battery_Save_To_Flash` (battery_monitor.c lines 243–258): the flash write
itself is external; `flashWriteOk` tells whether `Flash_WriteBatteryData`
returned `HAL_OK`, in which case the bookkeeping fields are refreshed. -/
def Battery_Save_To_Flash (flashWriteOk : Bool) (m : Battery_Monitor_t)
    (current_time : ℕ) : Battery_Monitor_t :=
  if flashWriteOk then
    { m with last_saved_percentage := m.battery_percentage,
             last_flash_save_time := current_time }
  else m

/-- The filtering/averaging part of `Battery_Monitor_Update`
(battery_monitor.c lines 80–125): load-change handling, ring buffer, mean
filter, load compensation and the periodic ten-second-buffer push. -/
def bmPre (expf : ℚ → ℚ) (m : Battery_Monitor_t)
    (current_time raw_adc_value : ℕ) (is_load_active : Bool) : Battery_Monitor_t :=
  let m1 := bmLoadChange m current_time is_load_active
  let m2 := bmStoreSample m1 raw_adc_value
  let m3 := { m2 with filtered_voltage := Battery_Filter_ADC_Samples m2 }
  let time_since_load_change := u32sub current_time m3.last_load_state_change_time
  let voltage_for_calculation :=
    if is_load_active then m3.filtered_voltage
    else Battery_Apply_Load_Compensation expf m3.filtered_voltage false time_since_load_change
  let m4 := { m3 with compensated_voltage := voltage_for_calculation }
  if 100 ≤ u32sub current_time m4.last_update_time then
    { (Battery_Update_Ten_Second_Average m4 voltage_for_calculation) with
      last_update_time := current_time }
  else m4

/-- Percentage update and `BATTERY_FULL` clamp on top of `bmPre`
(battery_monitor.c lines 127–156). -/
def bmMeasure (expf : ℚ → ℚ) (m : Battery_Monitor_t)
    (current_time raw_adc_value : ℕ) (is_load_active : Bool) : Battery_Monitor_t :=
  let r := Battery_Should_Update_Percentage
    (bmPre expf m current_time raw_adc_value is_load_active) current_time is_load_active
  let m7 := if r.1 then bmPercentageStep r.2 else r.2
  if BATTERY_FULL ≤ m7.compensated_voltage then
    { m7 with battery_percentage := 100 }
  else m7

/-- The trailing part of `Battery_Monitor_Update` (battery_monitor.c lines
171–184): conditional flash save and clearing of the recovery flag.
`time_since_load_change` is recomputed from `last_load_state_change_time`,
which no block after `bmLoadChange` modifies. -/
def bmFinish (flashWriteOk : Bool) (m9 : Battery_Monitor_t) (current_time : ℕ) :
    Battery_Monitor_t :=
  let m10 := if (2 : ℚ) ≤ |m9.battery_percentage - m9.last_saved_percentage| ∨
      300000 ≤ u32sub current_time m9.last_flash_save_time then
      Battery_Save_To_Flash flashWriteOk m9 current_time
    else m9
  if m10.voltage_recovery_in_progress = true ∧
      BATTERY_RECOVERY_TIME_MS ≤ u32sub current_time m10.last_load_state_change_time then
    { m10 with voltage_recovery_in_progress := false }
  else m10

/-- `Battery_Monitor_Update` (battery_monitor.c lines 78–185).  `expf` is the
C math library exponential and `flashWriteOk` the success of the (external)
flash write, both passed as oracles; `current_time` is `HAL_GetTick()`. -/
def Battery_Monitor_Update (expf : ℚ → ℚ) (flashWriteOk : Bool)
    (m : Battery_Monitor_t) (current_time raw_adc_value : ℕ) (is_load_active : Bool) :
    Battery_Monitor_t :=
  let m8 := bmMeasure expf m current_time raw_adc_value is_load_active
  let m9 := { m8 with status := classifyStatus m8.battery_percentage }
  bmFinish flashWriteOk m9 current_time

/-- `Battery_Load_From_Flash` (battery_monitor.c lines 260–301). -/
def Battery_Load_From_Flash (m : Battery_Monitor_t) (flash : List ℕ) :
    Battery_Monitor_t :=
  let r := Flash_ReadBatteryData flash
  let percentage := r.2.1
  let status := r.2.2.1
  let adc_value := r.2.2.2
  if r.1 = HALStatus.ok then
    if percentage ≤ 100 ∧ status ≤ 2 ∧ BATTERY_MIN ≤ adc_value ∧ adc_value ≤ BATTERY_MAX then
      if 5 ≤ percentage ∧ percentage ≤ 95 then
        { m with battery_percentage := (percentage : ℚ),
                 status := statusOfCode status,
                 last_saved_percentage := (percentage : ℚ),
                 compensated_voltage := adc_value }
      else
        { m with battery_percentage := 50,
                 last_saved_percentage := 50,
                 compensated_voltage := adc_value,
                 status := .normal }
    else
      { m with battery_percentage := 50, last_saved_percentage := 50, status := .normal }
  else
    { m with battery_percentage := 50, last_saved_percentage := 50, status := .normal }

/-- `Battery_Monitor_Init` (battery_monitor.c lines 60–76): `memset` to zero,
set the defaults, stamp the times with `HAL_GetTick()` and load from flash. -/
def Battery_Monitor_Init (current_time : ℕ) (flash : List ℕ) : Battery_Monitor_t :=
  let m0 : Battery_Monitor_t := {
    raw_adc_samples := List.replicate 8 0,
    min_voltage_samples := List.replicate 8 0,
    sample_index := 0,
    min_voltage_index := 0,
    sample_buffer_full := false,
    min_voltage_buffer_full := false,
    ten_second_samples := List.replicate 50 0,
    ten_second_index := 0,
    ten_second_buffer_full := false,
    ten_second_start_time := current_time,
    filtered_voltage := 0,
    compensated_voltage := 0,
    display_voltage := 0,
    ten_second_average := 0,
    battery_percentage := 50,
    last_saved_percentage := 50,
    status := .normal,
    last_load_state_change_time := 0,
    is_under_load := false,
    voltage_recovery_in_progress := false,
    is_power_on_sequence := false,
    last_update_time := current_time,
    last_flash_save_time := current_time,
    power_on_time := current_time }
  Battery_Load_From_Flash m0 flash

/-! ### Invariant: `battery_percentage ∈ [0, 100]` -/

/-- The data-model invariant on the battery monitor. -/
def bmInv (m : Battery_Monitor_t) : Prop :=
  0 ≤ m.battery_percentage ∧ m.battery_percentage ≤ 100

lemma save_pct (ok : Bool) (m : Battery_Monitor_t) (t : ℕ) :
    (Battery_Save_To_Flash ok m t).battery_percentage = m.battery_percentage := by
  unfold Battery_Save_To_Flash; split_ifs <;> rfl

lemma save_status (ok : Bool) (m : Battery_Monitor_t) (t : ℕ) :
    (Battery_Save_To_Flash ok m t).status = m.status := by
  unfold Battery_Save_To_Flash; split_ifs <;> rfl

lemma bmFinish_pct (ok : Bool) (m : Battery_Monitor_t) (t : ℕ) :
    (bmFinish ok m t).battery_percentage = m.battery_percentage := by
  simp only [bmFinish]
  split_ifs <;> simp [save_pct]

lemma bmFinish_status (ok : Bool) (m : Battery_Monitor_t) (t : ℕ) :
    (bmFinish ok m t).status = m.status := by
  simp only [bmFinish]
  split_ifs <;> simp [save_status]

lemma get_avg_pct (m : Battery_Monitor_t) :
    (Battery_Get_Ten_Second_Average m).2.battery_percentage = m.battery_percentage := by
  simp only [Battery_Get_Ten_Second_Average]
  split_ifs <;> rfl

lemma should_pct (m : Battery_Monitor_t) (t : ℕ) (load : Bool) :
    (Battery_Should_Update_Percentage m t load).2.battery_percentage =
      m.battery_percentage := by
  simp only [Battery_Should_Update_Percentage]
  split_ifs <;> simp [get_avg_pct]

lemma loadChange_pct (m : Battery_Monitor_t) (t : ℕ) (load : Bool) :
    (bmLoadChange m t load).battery_percentage = m.battery_percentage := by
  unfold bmLoadChange; split_ifs <;> rfl

lemma storeSample_pct (m : Battery_Monitor_t) (raw : ℕ) :
    (bmStoreSample m raw).battery_percentage = m.battery_percentage := by
  simp only [bmStoreSample]
  split_ifs <;> rfl

lemma updTen_pct (m : Battery_Monitor_t) (v : ℕ) :
    (Battery_Update_Ten_Second_Average m v).battery_percentage = m.battery_percentage := by
  simp only [Battery_Update_Ten_Second_Average]
  split_ifs <;> rfl

lemma bmPercentageStep_inv {m : Battery_Monitor_t} (h : bmInv m) :
    bmInv (bmPercentageStep m) := by
  obtain ⟨h0, h1⟩ := h
  have hpct := get_avg_pct m
  have hB0 := BCP_nonneg (Battery_Get_Ten_Second_Average m).1
  have hB1 := BCP_le_100 (Battery_Get_Ten_Second_Average m).1
  simp only [bmPercentageStep, bmInv, hpct]
  split_ifs
  all_goals constructor
  all_goals simp only [abs_le, not_le, not_lt, not_and] at *
  all_goals linarith

lemma bmInv_pct {m m' : Battery_Monitor_t} (h : bmInv m)
    (e : m'.battery_percentage = m.battery_percentage) : bmInv m' := by
  rw [bmInv, e]; exact h

lemma bmPre_pct (expf : ℚ → ℚ) (m : Battery_Monitor_t) (t raw : ℕ) (load : Bool) :
    (bmPre expf m t raw load).battery_percentage = m.battery_percentage := by
  simp only [bmPre]
  split_ifs <;> simp [updTen_pct, storeSample_pct, loadChange_pct]

lemma bmMeasure_inv {m : Battery_Monitor_t} (h : bmInv m) (expf : ℚ → ℚ)
    (t raw : ℕ) (load : Bool) : bmInv (bmMeasure expf m t raw load) := by
  have hpre : bmInv (bmPre expf m t raw load) := bmInv_pct h (bmPre_pct expf m t raw load)
  have hshould : bmInv (Battery_Should_Update_Percentage
      (bmPre expf m t raw load) t load).2 :=
    bmInv_pct hpre (should_pct _ _ _)
  simp only [bmMeasure]
  split_ifs with hr1 hF hF
  · constructor <;> norm_num
  · exact bmPercentageStep_inv hshould
  · constructor <;> norm_num
  · exact hshould

lemma update_inv {m : Battery_Monitor_t} (h : bmInv m) (expf : ℚ → ℚ) (ok : Bool)
    (t raw : ℕ) (load : Bool) :
    bmInv (Battery_Monitor_Update expf ok m t raw load) := by
  have h8 := bmMeasure_inv h expf t raw load
  simp only [Battery_Monitor_Update]
  apply bmInv_pct h8
  rw [bmFinish_pct]

lemma update_status (expf : ℚ → ℚ) (ok : Bool) (m : Battery_Monitor_t)
    (t raw : ℕ) (load : Bool) :
    (Battery_Monitor_Update expf ok m t raw load).status =
      classifyStatus (Battery_Monitor_Update expf ok m t raw load).battery_percentage := by
  simp only [Battery_Monitor_Update]
  rw [bmFinish_status, bmFinish_pct]

lemma load_inv (m : Battery_Monitor_t) (flash : List ℕ) :
    bmInv (Battery_Load_From_Flash m flash) := by
  simp only [Battery_Load_From_Flash]
  split_ifs with h1 h2 h3
  · obtain ⟨hp5, hp95⟩ := h3
    constructor
    · simp
    · simp
      exact_mod_cast le_trans hp95 (by norm_num)
  · constructor <;> norm_num
  · constructor <;> norm_num
  · constructor <;> norm_num

lemma init_inv (t : ℕ) (flash : List ℕ) : bmInv (Battery_Monitor_Init t flash) := by
  simp only [Battery_Monitor_Init]
  exact load_inv _ _

/-! ### Flash round-trip facts -/

lemma cksum_body_eq (r t p s a : ℕ) :
    Flash_CalculateChecksum (flashDataBody r t p s a) =
      17 + 33 + 205 + 171 + 1 + 0 + r % 256 + r / 256 % 256 + t % 256 + t / 256 % 256 +
      t / 65536 % 256 + t / 16777216 % 256 + p % 256 + s % 256 + a % 256 + a / 256 % 256 := rfl

lemma cksum_body_le (r t p s a : ℕ) :
    Flash_CalculateChecksum (flashDataBody r t p s a) ≤ 4080 := by
  rw [cksum_body_eq]; omega

lemma flashDataBytes_valid (r t p s a : ℕ) :
    Flash_IsDataValid (flashDataBytes r t p s a) = true := by
  have h0 : word32 (flashDataBytes r t p s a) 0 =
      17 + 256 * 33 + 65536 * 205 + 16777216 * 171 := rfl
  have h0m : word32 (flashDataBytes r t p s a) 0 = FLASH_MAGIC_NUMBER := by
    rw [h0]; norm_num [FLASH_MAGIC_NUMBER]
  have h4 : word16 (flashDataBytes r t p s a) 4 = 1 := rfl
  have hcs : Flash_CalculateChecksum (flashDataBytes r t p s a) =
      Flash_CalculateChecksum (flashDataBody r t p s a) := rfl
  have hw : word32 (flashDataBytes r t p s a) 16 =
      Flash_CalculateChecksum (flashDataBody r t p s a) % 256 +
      256 * (Flash_CalculateChecksum (flashDataBody r t p s a) / 256 % 256) +
      65536 * (Flash_CalculateChecksum (flashDataBody r t p s a) / 65536 % 256) +
      16777216 * (Flash_CalculateChecksum (flashDataBody r t p s a) / 16777216 % 256) := rfl
  have hle := cksum_body_le r t p s a
  have hw2 : word32 (flashDataBytes r t p s a) 16 =
      Flash_CalculateChecksum (flashDataBytes r t p s a) := by
    rw [hw, hcs]; omega
  simp [Flash_IsDataValid, h0m, h4, hw2]

lemma read_flashDataBytes (r t p s a : ℕ) :
    Flash_ReadBatteryData (flashDataBytes r t p s a) =
      (.ok, p % 256, s % 256, a % 256 + 256 * (a / 256 % 256)) := by
  have hb12 : byteAt (flashDataBytes r t p s a) 12 = p % 256 := rfl
  have hb13 : byteAt (flashDataBytes r t p s a) 13 = s % 256 := rfl
  have h14 : word16 (flashDataBytes r t p s a) 14 = a % 256 + 256 * (a / 256 % 256) := rfl
  simp [Flash_ReadBatteryData, flashDataBytes_valid, hb12, hb13, h14]

lemma write_then_read (l : List ℕ) (p s a : ℕ) (hp : p < 256) (hs : s < 256)
    (ha : a < 65536) :
    Flash_ReadBatteryData (Flash_WriteBatteryData l p s a) = (.ok, p, s, a) := by
  have hp' : p % 256 = p := Nat.mod_eq_of_lt hp
  have hs' : s % 256 = s := Nat.mod_eq_of_lt hs
  have ha' : a % 256 + 256 * (a / 256 % 256) = a := by omega
  unfold Flash_WriteBatteryData
  split_ifs <;> rw [read_flashDataBytes, hp', hs', ha']

lemma corrupt_checksum_invalid (r t p s a j b : ℕ) (hj1 : 16 ≤ j) (hj2 : j < 20)
    (hb : b ≠ byteAt (flashDataBytes r t p s a) j) :
    Flash_IsDataValid ((flashDataBytes r t p s a).set j b) = false := by
  interval_cases j
  · have h0 : word32 ((flashDataBytes r t p s a).set 16 b) 0 =
        17 + 256 * 33 + 65536 * 205 + 16777216 * 171 := rfl
    have h0m : word32 ((flashDataBytes r t p s a).set 16 b) 0 = FLASH_MAGIC_NUMBER := by
      rw [h0]; norm_num [FLASH_MAGIC_NUMBER]
    have h4 : word16 ((flashDataBytes r t p s a).set 16 b) 4 = 1 := rfl
    have hcs : Flash_CalculateChecksum ((flashDataBytes r t p s a).set 16 b) =
        Flash_CalculateChecksum (flashDataBody r t p s a) := rfl
    have hw : word32 ((flashDataBytes r t p s a).set 16 b) 16 =
        b +
        256 * (Flash_CalculateChecksum (flashDataBody r t p s a) / 256 % 256) +
        65536 * (Flash_CalculateChecksum (flashDataBody r t p s a) / 65536 % 256) +
        16777216 * (Flash_CalculateChecksum (flashDataBody r t p s a) / 16777216 % 256) := rfl
    have hborig : byteAt (flashDataBytes r t p s a) 16 =
        Flash_CalculateChecksum (flashDataBody r t p s a) % 256 := rfl
    have hle := cksum_body_le r t p s a
    rw [hborig] at hb
    have hne : word32 ((flashDataBytes r t p s a).set 16 b) 16 ≠
        Flash_CalculateChecksum ((flashDataBytes r t p s a).set 16 b) := by
      rw [hw, hcs]; omega
    simp [Flash_IsDataValid, h0m, h4, hne]
  · have h0 : word32 ((flashDataBytes r t p s a).set 17 b) 0 =
        17 + 256 * 33 + 65536 * 205 + 16777216 * 171 := rfl
    have h0m : word32 ((flashDataBytes r t p s a).set 17 b) 0 = FLASH_MAGIC_NUMBER := by
      rw [h0]; norm_num [FLASH_MAGIC_NUMBER]
    have h4 : word16 ((flashDataBytes r t p s a).set 17 b) 4 = 1 := rfl
    have hcs : Flash_CalculateChecksum ((flashDataBytes r t p s a).set 17 b) =
        Flash_CalculateChecksum (flashDataBody r t p s a) := rfl
    have hw : word32 ((flashDataBytes r t p s a).set 17 b) 16 =
        (Flash_CalculateChecksum (flashDataBody r t p s a) % 256) +
        256 * b +
        65536 * (Flash_CalculateChecksum (flashDataBody r t p s a) / 65536 % 256) +
        16777216 * (Flash_CalculateChecksum (flashDataBody r t p s a) / 16777216 % 256) := rfl
    have hborig : byteAt (flashDataBytes r t p s a) 17 =
        Flash_CalculateChecksum (flashDataBody r t p s a) / 256 % 256 := rfl
    have hle := cksum_body_le r t p s a
    rw [hborig] at hb
    have hne : word32 ((flashDataBytes r t p s a).set 17 b) 16 ≠
        Flash_CalculateChecksum ((flashDataBytes r t p s a).set 17 b) := by
      rw [hw, hcs]; omega
    simp [Flash_IsDataValid, h0m, h4, hne]
  · have h0 : word32 ((flashDataBytes r t p s a).set 18 b) 0 =
        17 + 256 * 33 + 65536 * 205 + 16777216 * 171 := rfl
    have h0m : word32 ((flashDataBytes r t p s a).set 18 b) 0 = FLASH_MAGIC_NUMBER := by
      rw [h0]; norm_num [FLASH_MAGIC_NUMBER]
    have h4 : word16 ((flashDataBytes r t p s a).set 18 b) 4 = 1 := rfl
    have hcs : Flash_CalculateChecksum ((flashDataBytes r t p s a).set 18 b) =
        Flash_CalculateChecksum (flashDataBody r t p s a) := rfl
    have hw : word32 ((flashDataBytes r t p s a).set 18 b) 16 =
        (Flash_CalculateChecksum (flashDataBody r t p s a) % 256) +
        256 * (Flash_CalculateChecksum (flashDataBody r t p s a) / 256 % 256) +
        65536 * b +
        16777216 * (Flash_CalculateChecksum (flashDataBody r t p s a) / 16777216 % 256) := rfl
    have hborig : byteAt (flashDataBytes r t p s a) 18 =
        Flash_CalculateChecksum (flashDataBody r t p s a) / 65536 % 256 := rfl
    have hle := cksum_body_le r t p s a
    rw [hborig] at hb
    have hne : word32 ((flashDataBytes r t p s a).set 18 b) 16 ≠
        Flash_CalculateChecksum ((flashDataBytes r t p s a).set 18 b) := by
      rw [hw, hcs]; omega
    simp [Flash_IsDataValid, h0m, h4, hne]
  · have h0 : word32 ((flashDataBytes r t p s a).set 19 b) 0 =
        17 + 256 * 33 + 65536 * 205 + 16777216 * 171 := rfl
    have h0m : word32 ((flashDataBytes r t p s a).set 19 b) 0 = FLASH_MAGIC_NUMBER := by
      rw [h0]; norm_num [FLASH_MAGIC_NUMBER]
    have h4 : word16 ((flashDataBytes r t p s a).set 19 b) 4 = 1 := rfl
    have hcs : Flash_CalculateChecksum ((flashDataBytes r t p s a).set 19 b) =
        Flash_CalculateChecksum (flashDataBody r t p s a) := rfl
    have hw : word32 ((flashDataBytes r t p s a).set 19 b) 16 =
        (Flash_CalculateChecksum (flashDataBody r t p s a) % 256) +
        256 * (Flash_CalculateChecksum (flashDataBody r t p s a) / 256 % 256) +
        65536 * (Flash_CalculateChecksum (flashDataBody r t p s a) / 65536 % 256) +
        16777216 * b := rfl
    have hborig : byteAt (flashDataBytes r t p s a) 19 =
        Flash_CalculateChecksum (flashDataBody r t p s a) / 16777216 % 256 := rfl
    have hle := cksum_body_le r t p s a
    rw [hborig] at hb
    have hne : word32 ((flashDataBytes r t p s a).set 19 b) 16 ≠
        Flash_CalculateChecksum ((flashDataBytes r t p s a).set 19 b) := by
      rw [hw, hcs]; omega
    simp [Flash_IsDataValid, h0m, h4, hne]

lemma corrupt_checksum_read (r t p s a j b : ℕ) (hj1 : 16 ≤ j) (hj2 : j < 20)
    (hb : b ≠ byteAt (flashDataBytes r t p s a) j) :
    Flash_ReadBatteryData ((flashDataBytes r t p s a).set j b) = (.error, 50, 0, 3300) := by
  simp [Flash_ReadBatteryData, corrupt_checksum_invalid r t p s a j b hj1 hj2 hb]

/-! ## ADC task model (`freertos.c`, `StartAdcTask`) -/

def DUTY_100 : ℕ := 800
def DUTY_50 : ℕ := 400
def DUTY_0 : ℕ := 0

inductive LED_State_t where
  | low
  | middle
  | high
deriving DecidableEq, Repr

/-- `Adc_t` (main.h lines 109–126). -/
structure Adc_t where
  LED1_ADC_Value : ℕ
  LED2_ADC_Value : ℕ
  VBat_ADC_Value : ℕ
  LED1_State : LED_State_t
  LED2_State : LED_State_t
  State_Start_Time : ℕ
  Current_PWM_Duty : ℕ
  Cut_Off_PWM : Bool
  VBat_Filtered : ℕ
  VBat_Buffer : List ℕ
  VBat_Buffer_Index : ℕ
  VBat_Buffer_Full : Bool
deriving DecidableEq, Repr

/-- The initializer of the global `Adc_State` (freertos.c lines 110–122);
`Cut_Off_PWM` is not listed there and is therefore zero-initialized. -/
def Adc_State_init : Adc_t := {
  LED1_ADC_Value := 0, LED2_ADC_Value := 0, VBat_ADC_Value := 0,
  LED1_State := .middle, LED2_State := .middle, State_Start_Time := 0,
  Current_PWM_Duty := 0, Cut_Off_PWM := false, VBat_Filtered := 0,
  VBat_Buffer := List.replicate 8 0, VBat_Buffer_Index := 0,
  VBat_Buffer_Full := false }

/-- The step-limited smoothing filter of `StartAdcTask` (freertos.c lines
463–483): `prev` is `Adc_State.VBat_Filtered` (0 is the first-sample
sentinel), `filtered_value` the fresh ring-buffer average.  `diff` is an
`int16_t`, `diff / 4` truncates toward zero, and the `+=` wraps on
`uint16_t`. -/
def VBat_Filter_Step (prev filtered_value : ℤ) : ℤ :=
  if prev = 0 then filtered_value
  else
    let diff := i16 (filtered_value - prev)
    if |diff| > 30 then u16z (prev + diff.tdiv 4)
    else filtered_value

/-- Repeated application of the filter from the zero-initialized state. -/
def VBat_Filter_Run (samples : List ℤ) : ℤ := samples.foldl VBat_Filter_Step 0

/-! ## Button / timer state machine (`freertos.c`) -/

inductive Button_State_t where
  | standby
  | timerSet
deriving DecidableEq, Repr

/-- The fields of `Button_t` (main.h lines 129–164) that the timer state
machine reads or writes.  `second_count`, `minute_count` and
`cooling_second` are C `int8_t`; `Timer_Value` is `uint8_t`.  Debounce
bookkeeping (raw GPIO states, press timestamps) belongs to the environment
and is abstracted into which event fires. -/
structure Button_t where
  Timer_Value : ℕ
  second_count : ℤ
  minute_count : ℤ
  Current_Button_State : Button_State_t
  is_Start_Timer : Bool
  is_pushed_changed : Bool
  is_start_to_cooling : Bool
  cooling_second : ℤ
deriving DecidableEq, Repr

/-- The initializer of the global `Button_State` (freertos.c lines 124–138),
with `Timer_Value` as loaded from flash by `Timer_LoadFromFlash` (default
10). -/
def Button_State_init (timer_value : ℕ) : Button_t := {
  Timer_Value := timer_value, second_count := 0, minute_count := 0,
  Current_Button_State := .standby, is_Start_Timer := false,
  is_pushed_changed := false, is_start_to_cooling := false,
  cooling_second := 0 }

/-- The C cast `(uint8_t)x` of an `int` value, promoted back to `int`. -/
def u8i (n : ℤ) : ℤ := n % 256

/-- The C cast `(uint8_t)x` of an `int` value, as a `ℕ`. -/
def u8ofInt (n : ℤ) : ℕ := (n % 256).toNat

/-- A debounced button release after a valid 20ms–1s press (freertos.c lines
771–842): toggles the timer in STANDBY (starting the countdown or starting
cooling), or bumps `Timer_Value` in TIMER_SET. -/
def buttonShortClick (b0 : Button_t) : Button_t :=
  let b := { b0 with is_pushed_changed := false }
  match b.Current_Button_State with
  | .standby =>
      if b.is_start_to_cooling = false then
        let b1 := { b with is_Start_Timer := !b.is_Start_Timer }
        if b1.is_Start_Timer then
          { b1 with minute_count := i8 (b1.Timer_Value : ℤ), second_count := 0 }
        else if (b1.Timer_Value : ℤ) - u8i b1.minute_count ≠ 0 ∧ b1.second_count ≤ 50 then
          let c0 := i8 (((b1.Timer_Value : ℤ) - u8i b1.minute_count) * 10)
          let c := if c0 > 60 then 60 else c0
          { b1 with is_start_to_cooling := true, cooling_second := c }
        else b1
      else b
  | .timerSet =>
      let tv0 := u8 (b.Timer_Value + 2)
      let tv := if tv0 > 10 then 2 else tv0
      { b with Timer_Value := tv }

/-- Holding the button ≥ 1.5 s (freertos.c lines 845–863): STANDBY (timer not
running) enters TIMER_SET, TIMER_SET returns to STANDBY. -/
def buttonHold (b : Button_t) : Button_t :=
  if b.is_pushed_changed = false then
    if b.Current_Button_State = .standby ∧ b.is_Start_Timer = false then
      { b with is_pushed_changed := true, Current_Button_State := .timerSet }
    else if b.Current_Button_State = .timerSet then
      { b with is_pushed_changed := true, Current_Button_State := .standby }
    else b
  else b

/-- The 5-second TIMER_SET inactivity timeout (freertos.c lines 866–875). -/
def timerSetTimeout (b : Button_t) : Button_t :=
  if b.Current_Button_State = .timerSet then
    { b with Current_Button_State := .standby }
  else b

/-- `Callback01`, the 1-second periodic timer callback (freertos.c lines
1302–1357). -/
def Callback01 (b : Button_t) : Button_t :=
  if b.is_Start_Timer then
    if b.second_count > 0 then
      { b with second_count := i8 (b.second_count - 1) }
    else if b.minute_count > 0 then
      { b with minute_count := i8 (b.minute_count - 1), second_count := 59 }
    else
      let cooling_time0 : ℕ := b.Timer_Value * 10
      let cooling_time : ℕ :=
        if cooling_time0 < 30 then 10
        else if cooling_time0 > 60 then 60
        else cooling_time0
      { b with is_Start_Timer := false, is_start_to_cooling := true,
               cooling_second := i8 (cooling_time : ℤ) }
  else
    if b.is_start_to_cooling then
      let c := i8 (b.cooling_second - 1)
      if c ≤ 0 then { b with cooling_second := c, is_start_to_cooling := false }
      else { b with cooling_second := c }
    else b

/-- `UART_ProcessTimerSet` (freertos.c lines 1216–1230); the `sscanf` parse
of `"mm:ss"` is modelled by passing the two parsed integers. -/
def UART_ProcessTimerSet (minutes seconds : ℤ) (b : Button_t) : Button_t × String :=
  if 0 ≤ minutes ∧ minutes ≤ 99 ∧ 0 ≤ seconds ∧ seconds ≤ 59 then
    ({ b with Timer_Value := u8ofInt minutes }, "OK:Timer set\n")
  else (b, "ERROR:Invalid time range\n")

/-- `UART_ProcessTimerStart` (freertos.c lines 1235–1252). -/
def UART_ProcessTimerStart (b : Button_t) : Button_t × String :=
  if b.is_Start_Timer = false ∧ b.is_start_to_cooling = false then
    ({ b with is_Start_Timer := true, minute_count := i8 (b.Timer_Value : ℤ),
              second_count := 0 }, "OK:Timer started\n")
  else (b, "ERROR:Timer already running\n")

/-- `UART_ProcessTimerStop` (freertos.c lines 1257–1278). -/
def UART_ProcessTimerStop (b : Button_t) : Button_t × String :=
  if b.is_Start_Timer then
    let b1 := { b with is_Start_Timer := false }
    if (b1.Timer_Value : ℤ) - b1.minute_count ≠ 0 ∧ b1.second_count ≤ 50 then
      let c0 := i8 (((b1.Timer_Value : ℤ) - b1.minute_count) * 10)
      let c := if c0 > 60 then 60 else c0
      ({ b1 with is_start_to_cooling := true, cooling_second := c },
        "OK:Timer stopped, cooling started\n")
    else (b1, "OK:Timer stopped\n")
  else (b, "ERROR:Timer not running\n")

/-- `UART_ProcessReset` (freertos.c lines 1283–1300). -/
def UART_ProcessReset (b : Button_t) : Button_t × String :=
  ({ b with is_Start_Timer := false, is_start_to_cooling := false,
            Current_Button_State := .standby }, "OK:System reset\n")

/-- Events that mutate the timer state: debounced button gestures, the
1-second callback, and the serial timer commands. -/
inductive Ev where
  | shortClick
  | hold
  | setTimeout
  | tick
  | uartSetTimer (minutes seconds : ℤ)
  | uartStart
  | uartStop
  | uartReset
deriving DecidableEq, Repr

def buttonStep : Ev → Button_t → Button_t
  | .shortClick, b => buttonShortClick b
  | .hold, b => buttonHold b
  | .setTimeout, b => timerSetTimeout b
  | .tick, b => Callback01 b
  | .uartSetTimer m s, b => (UART_ProcessTimerSet m s b).1
  | .uartStart, b => (UART_ProcessTimerStart b).1
  | .uartStop, b => (UART_ProcessTimerStop b).1
  | .uartReset, b => (UART_ProcessReset b).1

def buttonRun (b : Button_t) (evs : List Ev) : Button_t :=
  evs.foldl (fun st e => buttonStep e st) b

/-- The duty cycle committed to the PWM peripheral each ADC-task cycle
(freertos.c lines 536–537, the `__HAL_TIM_SET_COMPARE` call). -/
def AdcTask_Committed_Duty (adc : Adc_t) (b : Button_t) : ℕ :=
  if b.is_Start_Timer then adc.Current_PWM_Duty else DUTY_0

/-! ## UART status response (`freertos.c`, `UART_SendStatusData`) -/

def decDigit (d : ℕ) : Char := Char.ofNat (48 + d)

/-- `%d` rendering for the byte-range values used in the status string. -/
def decStr (n : ℕ) : String :=
  if n < 10 then String.mk [decDigit n]
  else if n < 100 then String.mk [decDigit (n / 10), decDigit (n % 10)]
  else String.mk [decDigit (n / 100), decDigit (n / 10 % 10), decDigit (n % 10)]

/-- `%02d` rendering. -/
def dec02 (n : ℕ) : String :=
  if n < 100 then String.mk [decDigit (n / 10), decDigit (n % 10)]
  else decStr n

/-- The battery-percent computation of `UART_SendStatusData` (freertos.c
lines 1146–1153): linear map of the ADC value with rounding, clamped to 100
above 2650 counts; the `(uint8_t)` cast wraps. -/
def UART_Battery_Percent (v : ℕ) : ℕ :=
  let bp0 : ℕ :=
    if v > 500 then u8 (Int.toNat ⌊((v : ℚ) - 500) / 2200 * 100 + 1/2⌋) else 0
  if bp0 > 100 ∨ v > 2650 then 100 else bp0

/-- The timer status string (freertos.c lines 1156–1165). -/
def Timer_Status_String (b : Button_t) : String :=
  if b.Current_Button_State = .timerSet then "SETTING"
  else if b.is_start_to_cooling then "COOLING"
  else if b.is_Start_Timer then "RUNNING"
  else "STANDBY"

/-- The `TIMER:` field values (freertos.c lines 1172–1182): the configured
value in TIMER_SET, the cooling countdown while cooling, and otherwise the
live `minute_count`/`second_count` (assigned to `uint8_t`). -/
def UART_Timer_Field (b : Button_t) : ℕ × ℕ :=
  if b.Current_Button_State = .timerSet then (b.Timer_Value, 0)
  else if b.is_start_to_cooling then
    (u8ofInt (b.cooling_second.tdiv 60), u8ofInt (b.cooling_second.tmod 60))
  else (u8ofInt b.minute_count, u8ofInt b.second_count)

/-- The status line built by `UART_SendStatusData` (freertos.c lines
1134–1193, the `snprintf` format
`STATUS:BAT:%d%%,TIMER:%02d:%02d,STATUS:%s,L1:%d,L2:%d\n`). -/
def UART_SendStatusData_string (adc : Adc_t) (b : Button_t) : String :=
  let battery_percent := UART_Battery_Percent adc.VBat_ADC_Value
  let l1 : ℕ := if adc.LED1_State ≠ .middle then 1 else 0
  let l2 : ℕ := if adc.LED2_State ≠ .middle then 1 else 0
  let mmss := UART_Timer_Field b
  "STATUS:BAT:" ++ decStr battery_percent ++ "%,TIMER:" ++ dec02 mmss.1 ++ ":" ++
    dec02 mmss.2 ++ ",STATUS:" ++ Timer_Status_String b ++ ",L1:" ++ decStr l1 ++
    ",L2:" ++ decStr l2 ++ "\n"

/-- `needle` is a prefix of `hay` (on character lists). -/
def startsWithChars : List Char → List Char → Bool
  | [], _ => true
  | _ :: _, [] => false
  | c :: cs, d :: ds => c == d && startsWithChars cs ds

/-- `needle` occurs somewhere in `hay`. -/
def hasSubChars (needle : List Char) : List Char → Bool
  | [] => startsWithChars needle []
  | c :: cs => startsWithChars needle (c :: cs) || hasSubChars needle cs

/-- Substring containment on strings. -/
def strContains (hay needle : String) : Bool := hasSubChars needle.toList hay.toList

/-- Concrete battery-monitor state for the hysteresis counterexample. -/
def c1mon : Battery_Monitor_t := {
  raw_adc_samples := [2810, 2810, 2810, 2810, 2810, 2810, 2810, 2810],
  min_voltage_samples := [0, 0, 0, 0, 0, 0, 0, 0],
  sample_index := 0,
  min_voltage_index := 0,
  sample_buffer_full := true,
  min_voltage_buffer_full := false,
  ten_second_samples := [2810, 0, 2868, 2868, 2868, 2868, 2868, 2868, 2868, 2868, 2868, 2868, 2868, 2868, 2868, 2868, 2868, 2868, 2868, 2868, 2868, 2868, 2868, 2868, 2868, 2868, 2868, 2868, 2868, 2868, 2868, 2868, 2868, 2868, 2868, 2868, 2868, 2868, 2868, 2868, 2868, 2868, 2868, 2868, 2868, 2868, 2868, 2868, 2868, 2868],
  ten_second_index := 1,
  ten_second_buffer_full := true,
  ten_second_start_time := 0,
  filtered_voltage := 2810,
  compensated_voltage := 2810,
  display_voltage := 0,
  ten_second_average := 2810,
  battery_percentage := 21/2,
  last_saved_percentage := 21/2,
  status := .low,
  last_load_state_change_time := 0,
  is_under_load := true,
  voltage_recovery_in_progress := false,
  is_power_on_sequence := false,
  last_update_time := 10000,
  last_flash_save_time := 10000,
  power_on_time := 0 }

/-- Expected state after the first update of the hysteresis counterexample. -/
def c1E1 : Battery_Monitor_t := {
  raw_adc_samples := [2810, 2810, 2810, 2810, 2810, 2810, 2810, 2810],
  min_voltage_samples := [0, 0, 0, 0, 0, 0, 0, 0],
  sample_index := 1,
  min_voltage_index := 0,
  sample_buffer_full := true,
  min_voltage_buffer_full := false,
  ten_second_samples := [2810, 0, 2868, 2868, 2868, 2868, 2868, 2868, 2868, 2868, 2868, 2868, 2868, 2868, 2868, 2868, 2868, 2868, 2868, 2868, 2868, 2868, 2868, 2868, 2868, 2868, 2868, 2868, 2868, 2868, 2868, 2868, 2868, 2868, 2868, 2868, 2868, 2868, 2868, 2868, 2868, 2868, 2868, 2868, 2868, 2868, 2868, 2868, 2868, 2868],
  ten_second_index := 1,
  ten_second_buffer_full := true,
  ten_second_start_time := 0,
  filtered_voltage := 2810,
  compensated_voltage := 2810,
  display_voltage := 0,
  ten_second_average := 2809,
  battery_percentage := 863/100,
  last_saved_percentage := 21/2,
  status := .critical,
  last_load_state_change_time := 0,
  is_under_load := true,
  voltage_recovery_in_progress := false,
  is_power_on_sequence := false,
  last_update_time := 10000,
  last_flash_save_time := 10000,
  power_on_time := 0 }

/-- Expected state after the second update of the hysteresis counterexample. -/
def c1E2 : Battery_Monitor_t := {
  raw_adc_samples := [2810, 2810, 2810, 2810, 2810, 2810, 2810, 2810],
  min_voltage_samples := [0, 0, 0, 0, 0, 0, 0, 0],
  sample_index := 2,
  min_voltage_index := 0,
  sample_buffer_full := true,
  min_voltage_buffer_full := false,
  ten_second_samples := [2810, 2810, 2868, 2868, 2868, 2868, 2868, 2868, 2868, 2868, 2868, 2868, 2868, 2868, 2868, 2868, 2868, 2868, 2868, 2868, 2868, 2868, 2868, 2868, 2868, 2868, 2868, 2868, 2868, 2868, 2868, 2868, 2868, 2868, 2868, 2868, 2868, 2868, 2868, 2868, 2868, 2868, 2868, 2868, 2868, 2868, 2868, 2868, 2868, 2868],
  ten_second_index := 2,
  ten_second_buffer_full := true,
  ten_second_start_time := 0,
  filtered_voltage := 2810,
  compensated_voltage := 2810,
  display_voltage := 0,
  ten_second_average := 2865,
  battery_percentage := 1063/100,
  last_saved_percentage := 21/2,
  status := .low,
  last_load_state_change_time := 0,
  is_under_load := true,
  voltage_recovery_in_progress := false,
  is_power_on_sequence := false,
  last_update_time := 10100,
  last_flash_save_time := 10000,
  power_on_time := 0 }


lemma c1_update1 :
    Battery_Monitor_Update (fun _ => 0) true c1mon 10000 2810 true = c1E1 := by
  norm_num [Battery_Monitor_Update, bmMeasure, bmPre, bmLoadChange, bmStoreSample,
    Battery_Filter_ADC_Samples, Battery_Apply_Load_Compensation,
    Battery_Update_Ten_Second_Average, Battery_Get_Ten_Second_Average,
    Battery_Should_Update_Percentage, bmPercentageStep, Battery_Calculate_Percentage,
    scanTbl, battery_lookup_table, lerpRound, roundQ, classifyStatus, bmFinish,
    Battery_Save_To_Flash, u32sub, u16, c1mon, c1E1, BATTERY_FULL,
    BATTERY_RECOVERY_TIME_MS]
  norm_num [abs_le, le_abs]

lemma c1_update2 :
    Battery_Monitor_Update (fun _ => 0) true c1E1 10100 2810 true = c1E2 := by
  norm_num [Battery_Monitor_Update, bmMeasure, bmPre, bmLoadChange, bmStoreSample,
    Battery_Filter_ADC_Samples, Battery_Apply_Load_Compensation,
    Battery_Update_Ten_Second_Average, Battery_Get_Ten_Second_Average,
    Battery_Should_Update_Percentage, bmPercentageStep, Battery_Calculate_Percentage,
    scanTbl, battery_lookup_table, lerpRound, roundQ, classifyStatus, bmFinish,
    Battery_Save_To_Flash, u32sub, u16, c1E1, c1E2, BATTERY_FULL,
    BATTERY_RECOVERY_TIME_MS]
  norm_num [abs_le, le_abs]

/-! ### Mode predicates and the running/cooling exclusion invariant -/

/-- Standby-idle: in the STANDBY button state with neither the countdown nor
the cooling phase active. -/
def modeStandbyIdle (b : Button_t) : Bool :=
  (b.Current_Button_State == .standby) && !b.is_Start_Timer && !b.is_start_to_cooling

def modeTimerSet (b : Button_t) : Bool := b.Current_Button_State == .timerSet

def modeRunning (b : Button_t) : Bool := b.is_Start_Timer

def modeCooling (b : Button_t) : Bool := b.is_start_to_cooling

/-- Exactly one of the four modes of the claim is active. -/
def exactlyOneMode (b : Button_t) : Bool :=
  ((if modeStandbyIdle b then 1 else 0) + (if modeTimerSet b then 1 else 0) +
   (if modeRunning b then 1 else 0) + (if modeCooling b then 1 else 0) : ℕ) == 1

lemma buttonStep_excl (e : Ev) (b : Button_t)
    (h : (b.is_Start_Timer && b.is_start_to_cooling) = false) :
    ((buttonStep e b).is_Start_Timer && (buttonStep e b).is_start_to_cooling) = false := by
  cases e with
  | shortClick =>
      simp only [buttonStep, buttonShortClick]
      cases hcb : b.Current_Button_State <;> simp only [hcb] <;>
        first
        | (split_ifs <;> simp_all)
        | simp_all
  | hold =>
      simp only [buttonStep, buttonHold]
      split_ifs <;> simp_all
  | setTimeout =>
      simp only [buttonStep, timerSetTimeout]
      split_ifs <;> simp_all
  | tick =>
      simp only [buttonStep, Callback01]
      split_ifs <;> simp_all
  | uartSetTimer m s =>
      simp only [buttonStep, UART_ProcessTimerSet]
      split_ifs <;> simp_all
  | uartStart =>
      simp only [buttonStep, UART_ProcessTimerStart]
      split_ifs <;> simp_all
  | uartStop =>
      simp only [buttonStep, UART_ProcessTimerStop]
      split_ifs <;> simp_all
  | uartReset =>
      simp only [buttonStep, UART_ProcessReset]
      simp_all

lemma buttonRun_excl_aux (evs : List Ev) :
    ∀ b : Button_t, (b.is_Start_Timer && b.is_start_to_cooling) = false →
      ((buttonRun b evs).is_Start_Timer && (buttonRun b evs).is_start_to_cooling) = false := by
  induction evs with
  | nil => intro b h; simpa [buttonRun] using h
  | cons e es ih =>
      intro b h
      simp only [buttonRun, List.foldl_cons]
      exact ih (buttonStep e b) (buttonStep_excl e b h)

/-! ### Facts about the step-limited filter -/

lemma i16_id {n : ℤ} (h1 : -32768 ≤ n) (h2 : n < 32768) : i16 n = n := by
  unfold i16; omega

lemma tdiv4_natAbs (d : ℤ) : (d.tdiv 4).natAbs = d.natAbs / 4 := by
  rw [Int.natAbs_tdiv]
  rfl

lemma tdiv4_nonneg {d : ℤ} (h : 0 ≤ d) : 0 ≤ d.tdiv 4 :=
  Int.tdiv_nonneg h (by norm_num)

lemma tdiv4_nonpos {d : ℤ} (h : d ≤ 0) : d.tdiv 4 ≤ 0 := by
  have hneg : (-d).tdiv 4 = -(d.tdiv 4) := Int.neg_tdiv d 4
  have h2 : 0 ≤ (-d).tdiv 4 := Int.tdiv_nonneg (by omega) (by norm_num)
  omega

/-- ADC-task state for the PWM-override counterexample: cutoff flag set,
a 50% duty computed by the load-detection table. -/
def c2adc : Adc_t :=
  { Adc_State_init with Cut_Off_PWM := true, Current_PWM_Duty := DUTY_50 }

/-- Button state for the PWM-override counterexample: timer running. -/
def c2btn : Button_t := { Button_State_init 10 with is_Start_Timer := true }

/-- Event trace for the cooling-duration bug: enter TIMER_SET, set
`Timer_Value` to 2 (short click wraps 10+2 > 10 back to 2), leave TIMER_SET,
start the timer, then run the full 2-minute countdown to completion
(121 one-second callbacks). -/
def c6trace : List Ev :=
  [.hold, .shortClick, .hold, .shortClick] ++ List.replicate 121 .tick

/-- Event trace for the mode-exclusivity counterexample: start via UART, let
10 seconds elapse, stop early (entering cooling), then hold the button while
cooling is still active. -/
def c8trace : List Ev :=
  [.uartStart] ++ List.replicate 10 .tick ++ [.uartStop, .hold]

/-! ## Claim theorems -/

/-- C1: the spec's hysteresis claim is false.  From a state classified
CRITICAL (percentage 8.63), a single further update — with the very same raw
ADC reading, hence never crossing any recovery threshold — moves the status
to LOW because the ten-second average changed, with the new percentage
strictly inside (10, 20).  The classification is memoryless, not
hysteretic. -/
theorem C1_no_hysteresis_counterexample :
    (Battery_Monitor_Update (fun _ => 0) true c1mon 10000 2810 true).status =
      BatteryStatus.critical ∧
    (Battery_Monitor_Update (fun _ => 0) true
        (Battery_Monitor_Update (fun _ => 0) true c1mon 10000 2810 true)
        10100 2810 true).status = BatteryStatus.low ∧
    (10 : ℚ) <
      (Battery_Monitor_Update (fun _ => 0) true
        (Battery_Monitor_Update (fun _ => 0) true c1mon 10000 2810 true)
        10100 2810 true).battery_percentage ∧
    (Battery_Monitor_Update (fun _ => 0) true
        (Battery_Monitor_Update (fun _ => 0) true c1mon 10000 2810 true)
        10100 2810 true).battery_percentage < 20 := by
  rw [c1_update1, c1_update2]
  exact ⟨rfl, rfl, by norm_num [c1E2], by norm_num [c1E2]⟩

/-- C1 (amended): there is no hysteresis.  After every update the status is
the pure threshold function `classifyStatus` of the current percentage:
CRITICAL iff ≤ 10, and any percentage above 10 is never CRITICAL (above 20
it is NORMAL), so status leaves CRITICAL as soon as a single reading maps
above the critical threshold — enter and exit thresholds coincide. -/
theorem C1_memoryless_classification_amended (expf : ℚ → ℚ) (ok : Bool)
    (m : Battery_Monitor_t) (t raw : ℕ) (load : Bool) :
    (Battery_Monitor_Update expf ok m t raw load).status =
      classifyStatus (Battery_Monitor_Update expf ok m t raw load).battery_percentage ∧
    (∀ p : ℚ, 10 < p → classifyStatus p ≠ BatteryStatus.critical) ∧
    (∀ p : ℚ, 20 < p → classifyStatus p = BatteryStatus.normal) := by
  refine ⟨update_status expf ok m t raw load, ?_, ?_⟩
  · intro p hp
    unfold classifyStatus
    split_ifs <;> first | (exfalso; linarith) | simp
  · intro p hp
    unfold classifyStatus
    split_ifs <;> first | (exfalso; linarith) | rfl

/-- C2: the spec's PWM cutoff claim is false.  With the timer running, the
committed duty is the computed duty even when `Cut_Off_PWM` is set — the
flag is declared in `Adc_t` but never read by the commit at freertos.c
lines 536–537. -/
theorem C2_cutoff_ignored_counterexample :
    c2adc.Cut_Off_PWM = true ∧ c2btn.is_Start_Timer = true ∧
    AdcTask_Committed_Duty c2adc c2btn = 400 ∧
    AdcTask_Committed_Duty c2adc c2btn ≠ 0 := by decide

/-- C2 (amended): the committed duty is 0 whenever the timer is not running,
and it is entirely independent of the `Cut_Off_PWM` flag. -/
theorem C2_committed_duty_amended :
    (∀ (adc : Adc_t) (b : Button_t), b.is_Start_Timer = false →
      AdcTask_Committed_Duty adc b = 0) ∧
    (∀ (adc : Adc_t) (b : Button_t) (v : Bool),
      AdcTask_Committed_Duty { adc with Cut_Off_PWM := v } b =
        AdcTask_Committed_Duty adc b) := by
  constructor
  · intro adc b h
    simp [AdcTask_Committed_Duty, h, DUTY_0]
  · intro adc b v
    rfl

theorem C2_committed_duty_amended_witness :
    (Button_State_init 10).is_Start_Timer = false ∧
    AdcTask_Committed_Duty Adc_State_init (Button_State_init 10) = 0 :=
  ⟨rfl, C2_committed_duty_amended.1 Adc_State_init (Button_State_init 10) rfl⟩

/-- C3: every battery-monitor operation — init, update (any ADC input, load
flag, tick time, flash outcome), and load-from-flash (any flash contents) —
preserves `0 ≤ battery_percentage ≤ 100`, after an update the status is the
pure function `classifyStatus` of the percentage, and that function is
CRITICAL iff pct ≤ 10, LOW iff 10 < pct ≤ 20, NORMAL iff 20 < pct. -/
theorem C3_battery_invariant (expf : ℚ → ℚ) (ok : Bool) (m : Battery_Monitor_t)
    (t0 t raw : ℕ) (load : Bool) (flash : List ℕ) (h : bmInv m) :
    bmInv (Battery_Monitor_Init t0 flash) ∧
    bmInv (Battery_Monitor_Update expf ok m t raw load) ∧
    (Battery_Monitor_Update expf ok m t raw load).status =
      classifyStatus (Battery_Monitor_Update expf ok m t raw load).battery_percentage ∧
    bmInv (Battery_Load_From_Flash m flash) ∧
    (∀ p : ℚ, (classifyStatus p = BatteryStatus.critical ↔ p ≤ 10) ∧
              (classifyStatus p = BatteryStatus.low ↔ 10 < p ∧ p ≤ 20) ∧
              (classifyStatus p = BatteryStatus.normal ↔ 20 < p)) := by
  refine ⟨init_inv t0 flash, update_inv h expf ok t raw load,
    update_status expf ok m t raw load, load_inv m flash, ?_⟩
  intro p
  refine ⟨?_, ?_, ?_⟩ <;> unfold classifyStatus <;> split_ifs <;> simp_all <;> linarith

theorem C3_battery_invariant_witness :
    bmInv c1mon ∧
    bmInv (Battery_Monitor_Update (fun _ => 0) true c1mon 10000 2810 true) := by
  have h : bmInv c1mon := by norm_num [bmInv, c1mon]
  exact ⟨h, (C3_battery_invariant (fun _ => 0) true c1mon 0 10000 2810 true [] h).2.1⟩

/-- C4: `Battery_Calculate_Percentage` is monotone in the ADC value, clamps
to exactly 0 at or below the first breakpoint (2741) and to exactly 100 at
or above the last (3730), and strictly between those it equals the rounded
linear interpolation `lerpRound` on the bracketing consecutive pair of the
ordered lookup table. -/
theorem C4_percentage_interpolation :
    (∀ a b : ℕ, a ≤ b →
      Battery_Calculate_Percentage a ≤ Battery_Calculate_Percentage b) ∧
    (∀ a : ℕ, a ≤ 2741 → Battery_Calculate_Percentage a = 0) ∧
    (∀ a : ℕ, 3730 ≤ a → Battery_Calculate_Percentage a = 100) ∧
    (∀ a : ℕ, 2741 < a → a < 3730 →
      ∃ (x0 p0 x1 p1 : ℕ) (l1 l2 : List (ℕ × ℕ)),
        battery_lookup_table = l1 ++ (x0, p0) :: (x1, p1) :: l2 ∧ x0 < a ∧ a ≤ x1 ∧
        Battery_Calculate_Percentage a = lerpRound x0 p0 x1 p1 a) := by
  refine ⟨fun a b hab => BCP_mono hab, fun a h => BCP_at_most_first h,
    fun a h => BCP_at_least_last h, ?_⟩
  intro a h1 h2
  have hlast : a ≤ lastX (2741, 0) battery_lookup_table.tail := by
    rw [tbl_lastX]; omega
  obtain ⟨x0, p0, x1, p1, l1, l2, heq, hx0, hx1, hsc⟩ :=
    scan_bracket (a := a) battery_lookup_table.tail (2741, 0) tbl_chain h1 hlast
  refine ⟨x0, p0, x1, p1, l1, l2, ?_, hx0, hx1, ?_⟩
  · have hhd : battery_lookup_table = (2741, 0) :: battery_lookup_table.tail := rfl
    rw [hhd, heq]
  · unfold Battery_Calculate_Percentage
    rw [if_neg (by omega), if_neg (by omega)]
    exact hsc

theorem C4_percentage_interpolation_witness :
    Battery_Calculate_Percentage 2741 = 0 ∧ Battery_Calculate_Percentage 3730 = 100 :=
  ⟨C4_percentage_interpolation.2.1 2741 (le_refl 2741),
   C4_percentage_interpolation.2.2.1 3730 (le_refl 3730)⟩

/-- C5: the step-limited filter snaps exactly on the first-ever update (the
previous value is the 0 sentinel); afterwards, for in-range 12-bit values,
if `|new − previous| > 30` the output moves by exactly the truncated quarter
of the difference (the `int16_t` cast and `uint16_t` wrap are identities in
range), otherwise it snaps to the new value; hence one tick never moves the
output by more than `max 30 (|diff|/4)`. -/
theorem C5_step_filter :
    (∀ v : ℤ, VBat_Filter_Step 0 v = v) ∧
    (∀ prev v : ℤ, prev ≠ 0 → 0 ≤ prev → prev ≤ 4095 → 0 ≤ v → v ≤ 4095 →
      (VBat_Filter_Step prev v =
        if 30 < |v - prev| then prev + (v - prev).tdiv 4 else v) ∧
      ((|VBat_Filter_Step prev v - prev| : ℤ) : ℚ) ≤
        max 30 (((|v - prev| : ℤ) : ℚ) / 4)) := by
  constructor
  · intro v
    simp [VBat_Filter_Step]
  · intro prev v hne h0p h1p h0v h1v
    have hi : i16 (v - prev) = v - prev := i16_id (by omega) (by omega)
    have hA : ((v - prev).tdiv 4).natAbs = (v - prev).natAbs / 4 := tdiv4_natAbs _
    have hs1 : 0 ≤ v - prev → 0 ≤ (v - prev).tdiv 4 := fun h => tdiv4_nonneg h
    have hs2 : v - prev ≤ 0 → (v - prev).tdiv 4 ≤ 0 := fun h => tdiv4_nonpos h
    have hu : u16z (prev + (v - prev).tdiv 4) = prev + (v - prev).tdiv 4 := by
      unfold u16z
      omega
    have heq : VBat_Filter_Step prev v =
        if 30 < |v - prev| then prev + (v - prev).tdiv 4 else v := by
      simp only [VBat_Filter_Step, if_neg hne, hi]
      split_ifs with hgt
      · exact hu
      · rfl
    refine ⟨heq, ?_⟩
    rw [heq]
    by_cases hgt : 30 < |v - prev|
    · rw [if_pos hgt]
      have hsimp : prev + (v - prev).tdiv 4 - prev = (v - prev).tdiv 4 := by ring
      rw [hsimp]
      have h4 : 4 * |(v - prev).tdiv 4| ≤ |v - prev| := by
        rw [Int.abs_eq_natAbs, Int.abs_eq_natAbs]
        omega
      have hcast : (4 : ℚ) * ((|(v - prev).tdiv 4| : ℤ) : ℚ) ≤ ((|v - prev| : ℤ) : ℚ) := by
        exact_mod_cast h4
      refine le_trans ?_ (le_max_right _ _)
      linarith
    · rw [if_neg hgt]
      push_neg at hgt
      have hcast : ((|v - prev| : ℤ) : ℚ) ≤ 30 := by exact_mod_cast hgt
      exact le_trans hcast (le_max_left _ _)

theorem C5_step_filter_witness :
    VBat_Filter_Step 0 2800 = 2800 ∧
    (VBat_Filter_Step 100 200 =
      if 30 < |(200 : ℤ) - 100| then 100 + ((200 : ℤ) - 100).tdiv 4 else 200) ∧
    ((|VBat_Filter_Step 100 200 - 100| : ℤ) : ℚ) ≤
      max 30 (((|(200 : ℤ) - 100| : ℤ) : ℚ) / 4) :=
  ⟨C5_step_filter.1 2800,
   (C5_step_filter.2 100 200 (by decide) (by decide) (by decide) (by decide)
      (by decide)).1,
   (C5_step_filter.2 100 200 (by decide) (by decide) (by decide) (by decide)
      (by decide)).2⟩

set_option maxRecDepth 40000 in
/-- C6: code bug.  Completing the full countdown with `Timer_Value = 2`
(reached through TIMER_SET, where a short click steps 10 by +2 and wraps
values above 10 back to 2) enters cooling with
`cooling_second = 2 * 10 = 20 < 30` rescaled to 10 by the `< 30` branch of
`Callback01`, so the computed cooling duration lies outside the claimed
[30, 60] band — the code sets 10, not the commented minimum of 30. -/
theorem C6_cooling_below_minimum :
    (buttonRun (Button_State_init 10) c6trace).is_start_to_cooling = true ∧
    (buttonRun (Button_State_init 10) c6trace).Timer_Value = 2 ∧
    (buttonRun (Button_State_init 10) c6trace).cooling_second = 10 ∧
    ((buttonRun (Button_State_init 10) c6trace).cooling_second < 30 ∨
      60 < (buttonRun (Button_State_init 10) c6trace).cooling_second) := by decide

/-- C7: flash round-trip.  Writing (77, CRITICAL = 2, 3000) over any prior
flash contents and reading back yields exactly `HAL_OK` with (77, 2, 3000);
corrupting any single byte of the checksum field (offsets 16–19) makes the
read report `HAL_ERROR` with the defaults (50, NORMAL = 0, 3300). -/
theorem C7_flash_roundtrip (flash : List ℕ) (j b : ℕ) (hj1 : 16 ≤ j) (hj2 : j < 20)
    (hb : b ≠ byteAt (Flash_WriteBatteryData flash 77 2 3000) j) :
    Flash_ReadBatteryData (Flash_WriteBatteryData flash 77 2 3000) =
      (HALStatus.ok, 77, 2, 3000) ∧
    statusOfCode 2 = BatteryStatus.critical ∧
    Flash_ReadBatteryData ((Flash_WriteBatteryData flash 77 2 3000).set j b) =
      (HALStatus.error, 50, 0, 3300) := by
  refine ⟨write_then_read flash 77 2 3000 (by norm_num) (by norm_num) (by norm_num),
    rfl, ?_⟩
  unfold Flash_WriteBatteryData at hb ⊢
  split_ifs at hb ⊢ with hv
  · exact corrupt_checksum_read _ _ _ _ _ j b hj1 hj2 hb
  · exact corrupt_checksum_read _ _ _ _ _ j b hj1 hj2 hb

theorem C7_flash_roundtrip_witness :
    16 ≤ 16 ∧ 16 < 20 ∧ (0 : ℕ) ≠ byteAt (Flash_WriteBatteryData [] 77 2 3000) 16 ∧
    Flash_ReadBatteryData ((Flash_WriteBatteryData [] 77 2 3000).set 16 0) =
      (HALStatus.error, 50, 0, 3300) :=
  ⟨by decide, by decide, by decide,
   (C7_flash_roundtrip [] 16 0 (by decide) (by decide) (by decide)).2.2⟩

/-- C8: the mode-exclusivity claim is false.  Starting the timer over UART,
stopping it early (which enters cooling), and then holding the button while
cooling is still running reaches a state that is simultaneously in
TIMER_SET and cooling: the hold handler checks only
`STANDBY ∧ ¬is_Start_Timer`, not `is_start_to_cooling`. -/
theorem C8_mode_overlap_counterexample :
    modeTimerSet (buttonRun (Button_State_init 10) c8trace) = true ∧
    modeCooling (buttonRun (Button_State_init 10) c8trace) = true ∧
    exactlyOneMode (buttonRun (Button_State_init 10) c8trace) = false := by decide

/-- C8 (amended): the exclusion that does hold in every reachable state:
running (`is_Start_Timer`) and cooling (`is_start_to_cooling`) are never
active together, under any interleaving of button events, 1-second callbacks
and serial commands from the initial state. -/
theorem C8_running_cooling_exclusive_amended (tv : ℕ) (evs : List Ev) :
    (modeRunning (buttonRun (Button_State_init tv) evs) &&
      modeCooling (buttonRun (Button_State_init tv) evs)) = false :=
  buttonRun_excl_aux evs (Button_State_init tv) rfl

/-- C9: the claimed GET_STATUS echo is false.  In STANDBY,
`SET_TIMER:05:00` replies OK, but the status line renders the live
`minute_count`/`second_count` (still 00:00), not the configured
`Timer_Value`, so it contains `TIMER:00:00` and not `TIMER:05:00` (the
`STATUS:STANDBY` part does hold). -/
theorem C9_get_status_counterexample :
    (UART_ProcessTimerSet 5 0 (Button_State_init 10)).2 = "OK:Timer set\n" ∧
    strContains (UART_SendStatusData_string Adc_State_init
      (UART_ProcessTimerSet 5 0 (Button_State_init 10)).1) "TIMER:05:00" = false ∧
    strContains (UART_SendStatusData_string Adc_State_init
      (UART_ProcessTimerSet 5 0 (Button_State_init 10)).1) "STATUS:STANDBY" = true := by
  decide

/-- C9 (amended): in STANDBY, `SET_TIMER:05:00` replies OK and stores 5 in
`Timer_Value`, and the subsequent status line is exactly
`STATUS:BAT:0%,TIMER:00:00,STATUS:STANDBY,L1:0,L2:0` — `STATUS:STANDBY`
as claimed, but the TIMER field shows the idle counters 00:00. -/
theorem C9_get_status_amended :
    (UART_ProcessTimerSet 5 0 (Button_State_init 10)).2 = "OK:Timer set\n" ∧
    (UART_ProcessTimerSet 5 0 (Button_State_init 10)).1.Timer_Value = 5 ∧
    UART_SendStatusData_string Adc_State_init
        (UART_ProcessTimerSet 5 0 (Button_State_init 10)).1 =
      "STATUS:BAT:0%,TIMER:00:00,STATUS:STANDBY,L1:0,L2:0\n" ∧
    strContains (UART_SendStatusData_string Adc_State_init
      (UART_ProcessTimerSet 5 0 (Button_State_init 10)).1) "TIMER:00:00" = true := by
  decide

/-- C10: `Battery_Load_From_Flash` adopts the stored percentage, status and
ADC value exactly when the successfully-read record has percentage in
[5, 95], status code ≤ 2 (CRITICAL) and ADC in [BATTERY_MIN, BATTERY_MAX];
any successfully-read record outside these bands, and any failed read, is
replaced by percentage 50, last-saved 50 and NORMAL. -/
theorem C10_load_bands (m : Battery_Monitor_t) (flash : List ℕ) :
    (∀ p s a : ℕ, Flash_ReadBatteryData flash = (HALStatus.ok, p, s, a) →
      ((p ≤ 100 ∧ s ≤ 2 ∧ BATTERY_MIN ≤ a ∧ a ≤ BATTERY_MAX) →
        ((5 ≤ p ∧ p ≤ 95) →
          (Battery_Load_From_Flash m flash).battery_percentage = (p : ℚ) ∧
          (Battery_Load_From_Flash m flash).last_saved_percentage = (p : ℚ) ∧
          (Battery_Load_From_Flash m flash).status = statusOfCode s ∧
          (Battery_Load_From_Flash m flash).compensated_voltage = a) ∧
        (¬(5 ≤ p ∧ p ≤ 95) →
          (Battery_Load_From_Flash m flash).battery_percentage = 50 ∧
          (Battery_Load_From_Flash m flash).last_saved_percentage = 50 ∧
          (Battery_Load_From_Flash m flash).status = BatteryStatus.normal)) ∧
      (¬(p ≤ 100 ∧ s ≤ 2 ∧ BATTERY_MIN ≤ a ∧ a ≤ BATTERY_MAX) →
        (Battery_Load_From_Flash m flash).battery_percentage = 50 ∧
        (Battery_Load_From_Flash m flash).last_saved_percentage = 50 ∧
        (Battery_Load_From_Flash m flash).status = BatteryStatus.normal)) ∧
    ((Flash_ReadBatteryData flash).1 = HALStatus.error →
      (Battery_Load_From_Flash m flash).battery_percentage = 50 ∧
      (Battery_Load_From_Flash m flash).last_saved_percentage = 50 ∧
      (Battery_Load_From_Flash m flash).status = BatteryStatus.normal) := by
  constructor
  · intro p s a hread
    refine ⟨fun hband => ⟨fun hin => ?_, fun hout => ?_⟩, fun hnb => ?_⟩
    · simp [Battery_Load_From_Flash, hread, hband, hin]
    · simp [Battery_Load_From_Flash, hread, hband, hout]
    · simp [Battery_Load_From_Flash, hread, hnb]
  · intro herr
    simp only [Battery_Load_From_Flash]
    split_ifs with h1 h2 h3 <;> simp_all

theorem C10_load_bands_witness :
    Flash_ReadBatteryData (Flash_WriteBatteryData [] 77 2 3000) =
      (HALStatus.ok, 77, 2, 3000) ∧
    (Battery_Load_From_Flash (Battery_Monitor_Init 0 [])
        (Flash_WriteBatteryData [] 77 2 3000)).status = statusOfCode 2 := by
  have h := (C10_load_bands (Battery_Monitor_Init 0 [])
      (Flash_WriteBatteryData [] 77 2 3000)).1 77 2 3000 (by decide)
  exact ⟨by decide, ((h.1 (by decide)).1 (by decide)).2.2.1⟩
